import Mathlib

set_option maxHeartbeats 1000000

/-!
Shallow embedding of the consciousness-mcp signal router
(`SignalHandlers` in the source) and of the store interface it uses,
together with theorems settling the frozen claims about it.

The router consumes untyped JavaScript payload maps, so payload values are
embedded as a small JavaScript value type `JsVal`; the side effects of one
routing call (store inserts, notifier emits, dock replies, console logging)
are recorded as an explicit trace, and the backing store is explicit state.
-/

/-- A JavaScript runtime value as it occurs in signal payloads.  String- and
collection-to-number coercion is abstracted: a nonempty string, array or
object coerces to `nan` here, which is faithful for every non-numeric string
(numeric strings never occur in the payload fields the router reads). -/
inductive JsVal : Type where
  | undef : JsVal
  | nan : JsVal
  | bool : Bool → JsVal
  | num : ℚ → JsVal
  | str : String → JsVal
  | arr : List JsVal → JsVal
  | obj : List (String × JsVal) → JsVal

mutual

/-- Structural equality of JavaScript values, used for strict-equality
comparisons and for the store's `operation_id` uniqueness test.  As in
JavaScript, `NaN` is not equal to itself. -/
def JsVal.beq : JsVal → JsVal → Bool
  | JsVal.undef, JsVal.undef => true
  | JsVal.bool a, JsVal.bool b => a == b
  | JsVal.num a, JsVal.num b => a == b
  | JsVal.str a, JsVal.str b => a == b
  | JsVal.arr a, JsVal.arr b => JsVal.beqList a b
  | JsVal.obj a, JsVal.obj b => JsVal.beqFields a b
  | _, _ => false

/-- Element-wise equality of JavaScript arrays. -/
def JsVal.beqList : List JsVal → List JsVal → Bool
  | [], [] => true
  | x :: xs, y :: ys => JsVal.beq x y && JsVal.beqList xs ys
  | _, _ => false

/-- Field-wise equality of JavaScript objects. -/
def JsVal.beqFields : List (String × JsVal) → List (String × JsVal) → Bool
  | [], [] => true
  | (k1, v1) :: xs, (k2, v2) :: ys => k1 == k2 && JsVal.beq v1 v2 && JsVal.beqFields xs ys
  | _, _ => false

end

/-- JavaScript truthiness: `undefined`, `NaN`, `false`, `0` and `""` are
falsy, everything else (including every array and object) is truthy. -/
def JsVal.truthy : JsVal → Bool
  | JsVal.undef => false
  | JsVal.nan => false
  | JsVal.bool b => b
  | JsVal.num q => decide (q ≠ 0)
  | JsVal.str s => decide (s ≠ "")
  | JsVal.arr _ => true
  | JsVal.obj _ => true

/-- The JavaScript `||` operator: the left operand if truthy, else the right. -/
def jsOr (a b : JsVal) : JsVal :=
  if a.truthy then a else b

/-- The comparison `x > 0` as the router performs it on a payload field:
false on `undefined` (NaN comparison) and on non-numeric values. -/
def JsVal.gtZero : JsVal → Bool
  | JsVal.num q => decide (0 < q)
  | JsVal.bool b => b
  | _ => false

/-- JavaScript numeric coercion, restricted to the values the router divides:
numbers stay, `undefined`/`NaN`/non-empty strings/collections go to `NaN`,
booleans and the empty string follow the JavaScript rules. -/
def JsVal.toNumber : JsVal → JsVal
  | JsVal.num q => JsVal.num q
  | JsVal.bool b => JsVal.num (if b then 1 else 0)
  | JsVal.str s => if s = "" then JsVal.num 0 else JsVal.nan
  | _ => JsVal.nan

/-- The expression `x / 10` on a payload value. -/
def jsDiv10 (v : JsVal) : JsVal :=
  match v.toNumber with
  | JsVal.num q => JsVal.num (q / 10)
  | _ => JsVal.nan

/-- The expression `Math.min(1, x)`; `Math.min` returns `NaN` on `NaN`. -/
def jsMinOne (v : JsVal) : JsVal :=
  match v with
  | JsVal.num q => JsVal.num (min 1 q)
  | _ => JsVal.nan

/-- Rendering of a value inside a template literal.  Array joining and the
exact numeral rendering are abstracted; no claim depends on them. -/
def JsVal.jsToString : JsVal → String
  | JsVal.undef => "undefined"
  | JsVal.nan => "NaN"
  | JsVal.bool b => if b then "true" else "false"
  | JsVal.num q => toString q
  | JsVal.str s => s
  | JsVal.arr _ => ""
  | JsVal.obj _ => "[object Object]"

/-- Property access `p.k` on a payload map: the stored value, or `undefined`
when the key is absent. -/
def getField (p : List (String × JsVal)) (k : String) : JsVal :=
  match p.find? (fun kv => kv.fst == k) with
  | some kv => kv.snd
  | none => JsVal.undef

/-- Property access on an object value. -/
def getFieldV (v : JsVal) (k : String) : JsVal :=
  match v with
  | JsVal.obj fs => getField fs k
  | _ => JsVal.undef

/-- The rest pattern of `const { sender, ...data } = signal.payload` (all
non-`sender` fields). -/
def removeSender (p : List (String × JsVal)) : List (String × JsVal) :=
  p.filter (fun kv => !(kv.fst == "sender"))

/-- The expression `signal.timestamp * 1000 || Date.now()`: the signal's
timestamp scaled to milliseconds, or the local clock when it is zero. -/
def tsOr (t now : Nat) : Nat :=
  if t * 1000 = 0 then now else t * 1000

/-- Modelled from the spec: the numeric signal-type constants live in
`protocol.js`, which is not part of the provided sources; the spec only
enumerates the tags.  The constants are therefore assigned arbitrary
distinct values; nothing below depends on the particular numerals. -/
def SignalTypes.HEARTBEAT : Nat := 1

def SignalTypes.DOCK_REQUEST : Nat := 2

def SignalTypes.DOCK_APPROVED : Nat := 3

def SignalTypes.UNDOCK : Nat := 4

def SignalTypes.SHUTDOWN : Nat := 5

def SignalTypes.FILE_DISCOVERED : Nat := 6

def SignalTypes.FILE_INDEXED : Nat := 7

def SignalTypes.FILE_MODIFIED : Nat := 8

def SignalTypes.FILE_DELETED : Nat := 9

def SignalTypes.SEARCH_STARTED : Nat := 10

def SignalTypes.SEARCH_COMPLETED : Nat := 11

def SignalTypes.SEARCH_RESULT : Nat := 12

def SignalTypes.BUILD_STARTED : Nat := 13

def SignalTypes.BUILD_COMPLETED : Nat := 14

def SignalTypes.BUILD_FAILED : Nat := 15

def SignalTypes.VERIFICATION_STARTED : Nat := 16

def SignalTypes.VERIFICATION_RESULT : Nat := 17

def SignalTypes.CLAIM_EXTRACTED : Nat := 18

def SignalTypes.VALIDATION_APPROVED : Nat := 19

def SignalTypes.VALIDATION_REJECTED : Nat := 20

def SignalTypes.HANDOFF_REQUEST : Nat := 21

def SignalTypes.HANDOFF_APPROVED : Nat := 22

def SignalTypes.HANDOFF_COMPLETED : Nat := 23

def SignalTypes.MODE_SWITCH : Nat := 24

def SignalTypes.ASTROSENTRY_EVENT : Nat := 25

def SignalTypes.ERROR : Nat := 26

/-- Modelled from the spec: `getSignalName` lives in `protocol.js`, which is
not part of the provided sources; the spec's enumerated tag names are used. -/
def getSignalName (t : Nat) : String :=
  if t = SignalTypes.HEARTBEAT then "heartbeat"
  else if t = SignalTypes.DOCK_REQUEST then "dock-request"
  else if t = SignalTypes.DOCK_APPROVED then "dock-approved"
  else if t = SignalTypes.UNDOCK then "undock"
  else if t = SignalTypes.SHUTDOWN then "shutdown"
  else if t = SignalTypes.FILE_DISCOVERED then "file-discovered"
  else if t = SignalTypes.FILE_INDEXED then "file-indexed"
  else if t = SignalTypes.FILE_MODIFIED then "file-modified"
  else if t = SignalTypes.FILE_DELETED then "file-deleted"
  else if t = SignalTypes.SEARCH_STARTED then "search-started"
  else if t = SignalTypes.SEARCH_COMPLETED then "search-completed"
  else if t = SignalTypes.SEARCH_RESULT then "search-result"
  else if t = SignalTypes.BUILD_STARTED then "build-started"
  else if t = SignalTypes.BUILD_COMPLETED then "build-completed"
  else if t = SignalTypes.BUILD_FAILED then "build-failed"
  else if t = SignalTypes.VERIFICATION_STARTED then "verification-started"
  else if t = SignalTypes.VERIFICATION_RESULT then "verification-result"
  else if t = SignalTypes.CLAIM_EXTRACTED then "claim-extracted"
  else if t = SignalTypes.VALIDATION_APPROVED then "validation-approved"
  else if t = SignalTypes.VALIDATION_REJECTED then "validation-rejected"
  else if t = SignalTypes.HANDOFF_REQUEST then "handoff-request"
  else if t = SignalTypes.HANDOFF_APPROVED then "handoff-approved"
  else if t = SignalTypes.HANDOFF_COMPLETED then "handoff-completed"
  else if t = SignalTypes.MODE_SWITCH then "mode-switch"
  else if t = SignalTypes.ASTROSENTRY_EVENT then "astrosentry-event"
  else if t = SignalTypes.ERROR then "error"
  else "unknown"

/-- The wire-level signal: `{ signalType, version, timestamp (seconds),
payload }`. -/
structure Signal : Type where
  signalType : Nat
  version : Nat
  timestamp : Nat
  payload : List (String × JsVal)

/-- The network origin of the sender (`RemoteInfo`). -/
structure RemoteInfo : Type where
  address : String
  port : Nat

/-- The uniform audit record (`AttentionEvent` in `types.js`). -/
structure AttentionEvent : Type where
  timestamp : Nat
  server_name : JsVal
  event_type : String
  target : JsVal
  context : JsVal

/-- A derived operation record (`Operation` in `types.js`). -/
structure Operation : Type where
  timestamp : Nat
  server_name : JsVal
  operation_type : JsVal
  operation_id : JsVal
  input_summary : JsVal
  outcome : String
  quality_score : JsVal
  lessons : JsVal
  duration_ms : JsVal

/-- One observable side effect of a routing call. -/
inductive Effect : Type where
  | insertAttentionEvent : AttentionEvent → Effect
  | insertOperation : Operation → Effect
  | emit : String → JsVal → Effect
  | sendResponse : String → Nat → Signal → Effect
  | consoleError : String → Effect

/-- Modelled from the spec: the backing store behind
`getDatabase()` (`database/schema.js`) is not part of the provided sources.
Per the spec it persists attention events and operations, may reject an
attention-event write with a storage error (`attentionFails` models a store
whose attention-event inserts fail), and enforces uniqueness of
`operation_id`, rejecting a duplicate operation insert. -/
structure Store : Type where
  attentionEvents : List AttentionEvent
  operations : List Operation
  attentionFails : Bool

/-- Modelled from the spec: `insertAttentionEvent` appends the record or
fails with a storage error. -/
def Store.insertAttentionEvent (s : Store) (e : AttentionEvent) : Except String Store :=
  if s.attentionFails then Except.error "storage error"
  else Except.ok { s with attentionEvents := s.attentionEvents ++ [e] }

/-- Modelled from the spec: `insertOperation` appends the record, or fails
when an operation with the same `operation_id` already exists. -/
def Store.insertOperation (s : Store) (op : Operation) : Except String Store :=
  if s.operations.any (fun o => o.operation_id.beq op.operation_id) then
    Except.error "duplicate operation_id"
  else Except.ok { s with operations := s.operations ++ [op] }

/-- The mutable state threaded through one routing call: the store plus the
trace of side effects performed so far. -/
structure RouteState : Type where
  store : Store
  trace : List Effect

/-- The outcome of a handler: the state reached, plus the error that escaped
the handler (`none` when it returned normally).  An `err` of `some`
corresponds to the handler throwing, which rejects the promise returned by
`route`. -/
structure RouteResult : Type where
  state : RouteState
  err : Option String

/-- A handler returning normally. -/
def RouteResult.done (st : RouteState) : RouteResult :=
  { state := st, err := none }

/-- Record an `emit` call on the handler context. -/
def RouteState.emitE (st : RouteState) (name : String) (v : JsVal) : RouteState :=
  { st with trace := st.trace ++ [Effect.emit name v] }

/-- Record a `console.error` call. -/
def RouteState.logE (st : RouteState) (m : String) : RouteState :=
  { st with trace := st.trace ++ [Effect.consoleError m] }

/-- Record a `sendResponse` call on the handler context. -/
def RouteState.sendE (st : RouteState) (host : String) (port : Nat) (s : Signal) : RouteState :=
  { st with trace := st.trace ++ [Effect.sendResponse host port s] }

/-- A bare `db.insertAttentionEvent(event)` call, as the family handlers
perform it: not wrapped in try/catch, so a store failure escapes. -/
def RouteState.insertAttentionEventR (st : RouteState) (e : AttentionEvent) : RouteResult :=
  match st.store.insertAttentionEvent e with
  | Except.ok s =>
    { state := { store := s, trace := st.trace ++ [Effect.insertAttentionEvent e] }, err := none }
  | Except.error m =>
    { state := { st with trace := st.trace ++ [Effect.insertAttentionEvent e] }, err := some m }

/-- A `try { db.insertOperation(op) } catch {}` block: the insert is
attempted and any failure (duplicate id or otherwise) is swallowed. -/
def RouteState.tryInsertOperation (st : RouteState) (op : Operation) : RouteState :=
  match st.store.insertOperation op with
  | Except.ok s => { store := s, trace := st.trace ++ [Effect.insertOperation op] }
  | Except.error _ => { st with trace := st.trace ++ [Effect.insertOperation op] }

/-- The universal audit record built at the top of every routing call
(the body of `logAttentionEvent`). -/
def SignalHandlers.attnOf (signal : Signal) (rinfo : RemoteInfo) (now : Nat) : AttentionEvent :=
  let data := removeSender signal.payload
  { timestamp := tsOr signal.timestamp now
  , server_name := getField signal.payload "sender"
  , event_type := "signal"
  , target := JsVal.str (getSignalName signal.signalType)
  , context := JsVal.obj
      [ ("signal_type", JsVal.num (signal.signalType : ℚ))
      , ("data", JsVal.obj data)
      , ("source_address", JsVal.str rinfo.address)
      , ("source_port", JsVal.num (rinfo.port : ℚ)) ] }

/-- `logAttentionEvent`: insert the universal audit record; the whole body is
wrapped in try/catch, so a store failure is logged to the console and
absorbed. -/
def SignalHandlers.logAttentionEvent (signal : Signal) (rinfo : RemoteInfo) (now : Nat)
    (st : RouteState) : RouteState :=
  let e := SignalHandlers.attnOf signal rinfo now
  match st.store.insertAttentionEvent e with
  | Except.ok s => { store := s, trace := st.trace ++ [Effect.insertAttentionEvent e] }
  | Except.error _ =>
    { st with trace := st.trace ++
        [Effect.insertAttentionEvent e,
         Effect.consoleError "[Handlers] Failed to log attention event"] }

/-- `handleHeartbeat`: emit a `server_heartbeat` notification. -/
def SignalHandlers.handleHeartbeat (signal : Signal) (_rinfo : RemoteInfo)
    (st : RouteState) : RouteResult :=
  let sender := getField signal.payload "sender"
  let data := removeSender signal.payload
  RouteResult.done (st.emitE "server_heartbeat" (JsVal.obj
    [ ("server", sender)
    , ("timestamp", JsVal.num (signal.timestamp : ℚ))
    , ("data", JsVal.obj data) ]))

/-- The dock-approval reply built by `handleDockRequest`. -/
def SignalHandlers.dockResponse (serverId : String) (now : Nat) : Signal :=
  { signalType := SignalTypes.DOCK_APPROVED
  , version := 0x0100
  , timestamp := now / 1000
  , payload :=
      [ ("sender", JsVal.str serverId)
      , ("approved", JsVal.bool true)
      , ("message", JsVal.str "Welcome to the consciousness mesh")
      , ("capabilities", JsVal.arr
          [JsVal.str "awareness", JsVal.str "pattern-detection", JsVal.str "reflection"]) ] }

/-- `handleDockRequest`: always reply with a dock approval to the sender. -/
def SignalHandlers.handleDockRequest (serverId : String) (_signal : Signal)
    (rinfo : RemoteInfo) (now : Nat) (st : RouteState) : RouteResult :=
  RouteResult.done
    (st.sendE rinfo.address rinfo.port (SignalHandlers.dockResponse serverId now))

/-- `handleShutdown`: log and emit a `server_shutdown` notification. -/
def SignalHandlers.handleShutdown (signal : Signal) (_rinfo : RemoteInfo)
    (st : RouteState) : RouteResult :=
  let sender := getField signal.payload "sender"
  RouteResult.done
    (((st.logE "[Handlers] Server is shutting down").emitE "server_shutdown" (JsVal.obj
      [ ("server", sender)
      , ("timestamp", JsVal.num (signal.timestamp : ℚ)) ])))

/-- `handleFileEvent`: insert a file attention event (no try/catch), then
emit a `file_event` notification. -/
def SignalHandlers.handleFileEvent (signal : Signal) (_rinfo : RemoteInfo) (now : Nat)
    (st : RouteState) : RouteResult :=
  let sender := getField signal.payload "sender"
  let data := removeSender signal.payload
  let e : AttentionEvent :=
    { timestamp := tsOr signal.timestamp now
    , server_name := sender
    , event_type := "file"
    , target := jsOr (jsOr (getField data "path") (getField data "file")) (JsVal.str "unknown")
    , context := JsVal.obj data }
  let r := st.insertAttentionEventR e
  match r.err with
  | some _ => r
  | none =>
    RouteResult.done (r.state.emitE "file_event" (JsVal.obj
      [ ("type", JsVal.str (getSignalName signal.signalType))
      , ("server", sender)
      , ("data", JsVal.obj data) ]))

/-- The search Operation derived by `handleSearchEvent` on a completed
search. -/
def SignalHandlers.searchOp (signal : Signal) (now : Nat) : Operation :=
  let sender := getField signal.payload "sender"
  let data := removeSender signal.payload
  { timestamp := tsOr signal.timestamp now
  , server_name := sender
  , operation_type := JsVal.str "search"
  , operation_id := jsOr (getField data "search_id") (JsVal.str ("search-" ++ toString now))
  , input_summary := jsOr (getField data "query") (JsVal.str "unknown")
  , outcome := if (getField data "results_count").gtZero then "success" else "partial"
  , quality_score := jsMinOne (jsDiv10 (jsOr (getField data "results_count") (JsVal.num 0)))
  , lessons := JsVal.obj [("results_count", getField data "results_count")]
  , duration_ms := getField data "duration_ms" }

/-- `handleSearchEvent`: on search-started insert a query attention event
(no try/catch); on search-completed derive the search Operation (insert
wrapped, failures swallowed); always emit a `search_event` notification. -/
def SignalHandlers.handleSearchEvent (signal : Signal) (_rinfo : RemoteInfo) (now : Nat)
    (st : RouteState) : RouteResult :=
  let sender := getField signal.payload "sender"
  let data := removeSender signal.payload
  let r1 : RouteResult :=
    if signal.signalType = SignalTypes.SEARCH_STARTED then
      st.insertAttentionEventR
        { timestamp := tsOr signal.timestamp now
        , server_name := sender
        , event_type := "query"
        , target := jsOr (jsOr (getField data "query") (getField data "search_term"))
            (JsVal.str "unknown")
        , context := JsVal.obj data }
    else RouteResult.done st
  match r1.err with
  | some _ => r1
  | none =>
    let st2 :=
      if signal.signalType = SignalTypes.SEARCH_COMPLETED then
        r1.state.tryInsertOperation (SignalHandlers.searchOp signal now)
      else r1.state
    RouteResult.done (st2.emitE "search_event" (JsVal.obj
      [ ("type", JsVal.str (getSignalName signal.signalType))
      , ("server", sender)
      , ("data", JsVal.obj data) ]))

/-- The build id chosen by `handleBuildEvent`:
`data.build_id || data.server_name || build-<now>`. -/
def SignalHandlers.buildIdOf (data : List (String × JsVal)) (now : Nat) : JsVal :=
  jsOr (jsOr (getField data "build_id") (getField data "server_name"))
    (JsVal.str ("build-" ++ toString now))

/-- The build Operation derived by `handleBuildEvent` on build completion or
failure. -/
def SignalHandlers.buildOp (signal : Signal) (now : Nat) : Operation :=
  let sender := getField signal.payload "sender"
  let data := removeSender signal.payload
  let outcome := if signal.signalType = SignalTypes.BUILD_COMPLETED then "success" else "failure"
  { timestamp := tsOr signal.timestamp now
  , server_name := sender
  , operation_type := JsVal.str "build"
  , operation_id := SignalHandlers.buildIdOf data now
  , input_summary := jsOr (jsOr (getField data "server_name") (getField data "description"))
      (JsVal.str "unknown")
  , outcome := outcome
  , quality_score := if outcome = "success" then JsVal.num (9 / 10) else JsVal.num (2 / 10)
  , lessons := JsVal.obj data
  , duration_ms := getField data "duration_ms" }

/-- `handleBuildEvent`: on build-started insert an operation attention event
(no try/catch); on build-completed or build-failed derive the build
Operation (insert wrapped, failures swallowed) and on failure emit one
`lesson_learned` notification tagged `build_failure`; always emit a
`build_event` notification.  The object spread in the build-started context
(`data` overriding the literal key) is modelled by appending the literal
field after `data`, which gives the same lookup behaviour. -/
def SignalHandlers.handleBuildEvent (signal : Signal) (_rinfo : RemoteInfo) (now : Nat)
    (st : RouteState) : RouteResult :=
  let sender := getField signal.payload "sender"
  let data := removeSender signal.payload
  let buildId := SignalHandlers.buildIdOf data now
  let r1 : RouteResult :=
    if signal.signalType = SignalTypes.BUILD_STARTED then
      st.insertAttentionEventR
        { timestamp := tsOr signal.timestamp now
        , server_name := sender
        , event_type := "operation"
        , target := buildId
        , context := JsVal.obj (data ++ [("operation", JsVal.str "build_started")]) }
    else RouteResult.done st
  match r1.err with
  | some _ => r1
  | none =>
    let st3 :=
      if signal.signalType = SignalTypes.BUILD_COMPLETED ∨
          signal.signalType = SignalTypes.BUILD_FAILED then
        let op := SignalHandlers.buildOp signal now
        let st2 := r1.state.tryInsertOperation op
        if op.outcome = "failure" then
          st2.emitE "lesson_learned" (JsVal.obj
            [ ("type", JsVal.str "build_failure")
            , ("server", sender)
            , ("data", JsVal.obj data) ])
        else st2
      else r1.state
    RouteResult.done (st3.emitE "build_event" (JsVal.obj
      [ ("type", JsVal.str (getSignalName signal.signalType))
      , ("server", sender)
      , ("data", JsVal.obj data) ]))

/-- The verify Operation derived by `handleVerificationEvent` on a
verification result. -/
def SignalHandlers.verifyOp (signal : Signal) (now : Nat) : Operation :=
  let sender := getField signal.payload "sender"
  let data := removeSender signal.payload
  let verdict := getField data "verdict"
  { timestamp := tsOr signal.timestamp now
  , server_name := sender
  , operation_type := JsVal.str "verify"
  , operation_id := jsOr (getField data "verification_id")
      (JsVal.str ("verify-" ++ toString now))
  , input_summary := jsOr (getField data "claim") (JsVal.str "unknown")
  , outcome :=
      if verdict.beq (JsVal.str "SUPPORTED") then "success"
      else if verdict.beq (JsVal.str "CONTRADICTED") then "failure"
      else "partial"
  , quality_score := jsOr (getField data "confidence") (JsVal.num (1 / 2))
  , lessons := JsVal.obj
      [ ("verdict", verdict)
      , ("constraints", getField data "constraints")
      , ("sources", getField data "sources") ]
  , duration_ms := getField data "duration_ms" }

/-- `handleVerificationEvent`: on a verification result derive the verify
Operation (insert wrapped, failures swallowed); always emit a
`verification_event` notification. -/
def SignalHandlers.handleVerificationEvent (signal : Signal) (_rinfo : RemoteInfo) (now : Nat)
    (st : RouteState) : RouteResult :=
  let sender := getField signal.payload "sender"
  let data := removeSender signal.payload
  let st2 :=
    if signal.signalType = SignalTypes.VERIFICATION_RESULT then
      st.tryInsertOperation (SignalHandlers.verifyOp signal now)
    else st
  RouteResult.done (st2.emitE "verification_event" (JsVal.obj
    [ ("type", JsVal.str (getSignalName signal.signalType))
    , ("server", sender)
    , ("data", JsVal.obj data) ]))

/-- `handleValidationEvent`: emit a `validation_event` notification, and on a
rejection additionally a `pattern_candidate` tagged `validation_failure`. -/
def SignalHandlers.handleValidationEvent (signal : Signal) (_rinfo : RemoteInfo)
    (st : RouteState) : RouteResult :=
  let sender := getField signal.payload "sender"
  let data := removeSender signal.payload
  let outcome :=
    if signal.signalType = SignalTypes.VALIDATION_APPROVED then "success" else "failure"
  let st1 := st.emitE "validation_event" (JsVal.obj
    [ ("type", JsVal.str (getSignalName signal.signalType))
    , ("outcome", JsVal.str outcome)
    , ("server", sender)
    , ("data", JsVal.obj data) ])
  let st2 :=
    if outcome = "failure" then
      st1.emitE "pattern_candidate" (JsVal.obj
        [ ("type", JsVal.str "validation_failure")
        , ("server", sender)
        , ("reason", getField data "reason")
        , ("data", JsVal.obj data) ])
    else st1
  RouteResult.done st2

/-- `handleCoordinationEvent`: insert a workflow attention event (no
try/catch), then emit a `coordination_event` notification. -/
def SignalHandlers.handleCoordinationEvent (signal : Signal) (_rinfo : RemoteInfo) (now : Nat)
    (st : RouteState) : RouteResult :=
  let sender := getField signal.payload "sender"
  let data := removeSender signal.payload
  let e : AttentionEvent :=
    { timestamp := tsOr signal.timestamp now
    , server_name := sender
    , event_type := "workflow"
    , target := JsVal.str (getSignalName signal.signalType)
    , context := JsVal.obj data }
  let r := st.insertAttentionEventR e
  match r.err with
  | some _ => r
  | none =>
    RouteResult.done (r.state.emitE "coordination_event" (JsVal.obj
      [ ("type", JsVal.str (getSignalName signal.signalType))
      , ("server", sender)
      , ("data", JsVal.obj data) ]))

/-- `handleAstrosentryEvent`: insert an operation attention event (no
try/catch); when an outcome is present derive an Operation (insert wrapped,
failures swallowed); log, emit an `astrosentry_event` notification, and on a
failure outcome additionally a `pattern_candidate` tagged
`astrosentry_failure`. -/
def SignalHandlers.handleAstrosentryEvent (signal : Signal) (_rinfo : RemoteInfo) (now : Nat)
    (st : RouteState) : RouteResult :=
  let sender := getField signal.payload "sender"
  let serverId := getField signal.payload "serverId"
  let eventType := getField signal.payload "eventType"
  let outcome := getField signal.payload "outcome"
  let operation := getField signal.payload "operation"
  let metadata := getField signal.payload "metadata"
  let source := getField signal.payload "source"
  let e : AttentionEvent :=
    { timestamp := tsOr signal.timestamp now
    , server_name := jsOr serverId sender
    , event_type := "operation"
    , target := JsVal.str (eventType.jsToString ++ ":" ++ operation.jsToString)
    , context := JsVal.obj
        [ ("astrosentry_event_type", eventType)
        , ("outcome", outcome)
        , ("source", source)
        , ("metadata", metadata) ] }
  let r := st.insertAttentionEventR e
  match r.err with
  | some _ => r
  | none =>
    let st2 :=
      if outcome.truthy then
        r.state.tryInsertOperation
          { timestamp := tsOr signal.timestamp now
          , server_name := jsOr serverId sender
          , operation_type := eventType
          , operation_id := JsVal.str
              (serverId.jsToString ++ "-" ++ eventType.jsToString ++ "-" ++ toString now)
          , input_summary := operation
          , outcome :=
              if outcome.beq (JsVal.str "success") then "success"
              else if outcome.beq (JsVal.str "failure") then "failure"
              else "partial"
          , quality_score :=
              if outcome.beq (JsVal.str "success") then JsVal.num 1
              else if outcome.beq (JsVal.str "failure") then JsVal.num 0
              else JsVal.num (1 / 2)
          , lessons := metadata
          , duration_ms := JsVal.undef }
      else r.state
    let st3 := (st2.logE "[Handlers] ASTROSENTRY_EVENT").emitE "astrosentry_event" (JsVal.obj
      [ ("serverId", serverId)
      , ("eventType", eventType)
      , ("outcome", outcome)
      , ("operation", operation)
      , ("metadata", metadata)
      , ("source", source) ])
    let st4 :=
      if outcome.beq (JsVal.str "failure") then
        st3.emitE "pattern_candidate" (JsVal.obj
          [ ("type", JsVal.str "astrosentry_failure")
          , ("server", serverId)
          , ("eventType", eventType)
          , ("operation", operation)
          , ("metadata", metadata) ])
      else st3
    RouteResult.done st4

/-- `handleError`: log, emit `error_received` and a `pattern_candidate`
tagged `error`. -/
def SignalHandlers.handleError (signal : Signal) (_rinfo : RemoteInfo)
    (st : RouteState) : RouteResult :=
  let sender := getField signal.payload "sender"
  let data := removeSender signal.payload
  let st1 := (st.logE "[Handlers] Error from sender").emitE "error_received" (JsVal.obj
    [ ("server", sender)
    , ("error", JsVal.obj data)
    , ("timestamp", JsVal.num (signal.timestamp : ℚ)) ])
  RouteResult.done (st1.emitE "pattern_candidate" (JsVal.obj
    [ ("type", JsVal.str "error")
    , ("server", sender)
    , ("data", JsVal.obj data) ]))

/-- `handleUnknownSignal`: log, then emit an `unknown_signal` notification
carrying the raw numeric signal type. -/
def SignalHandlers.handleUnknownSignal (signal : Signal) (_rinfo : RemoteInfo)
    (st : RouteState) : RouteResult :=
  let sender := getField signal.payload "sender"
  let data := removeSender signal.payload
  RouteResult.done
    (((st.logE "[Handlers] Unknown signal type").emitE "unknown_signal" (JsVal.obj
      [ ("type", JsVal.num (signal.signalType : ℚ))
      , ("server", sender)
      , ("data", JsVal.obj data) ])))

/-- The switch statement of `route`: dispatch on the signal type to the
family handler, in the source's case order. -/
def SignalHandlers.routeDispatch (serverId : String) (signal : Signal) (rinfo : RemoteInfo)
    (now : Nat) (st1 : RouteState) : RouteResult :=
  if signal.signalType = SignalTypes.HEARTBEAT then
    SignalHandlers.handleHeartbeat signal rinfo st1
  else if signal.signalType = SignalTypes.DOCK_REQUEST then
    SignalHandlers.handleDockRequest serverId signal rinfo now st1
  else if signal.signalType = SignalTypes.UNDOCK ∨
      signal.signalType = SignalTypes.SHUTDOWN then
    SignalHandlers.handleShutdown signal rinfo st1
  else if signal.signalType = SignalTypes.FILE_DISCOVERED ∨
      signal.signalType = SignalTypes.FILE_INDEXED ∨
      signal.signalType = SignalTypes.FILE_MODIFIED ∨
      signal.signalType = SignalTypes.FILE_DELETED then
    SignalHandlers.handleFileEvent signal rinfo now st1
  else if signal.signalType = SignalTypes.SEARCH_STARTED ∨
      signal.signalType = SignalTypes.SEARCH_COMPLETED ∨
      signal.signalType = SignalTypes.SEARCH_RESULT then
    SignalHandlers.handleSearchEvent signal rinfo now st1
  else if signal.signalType = SignalTypes.BUILD_STARTED ∨
      signal.signalType = SignalTypes.BUILD_COMPLETED ∨
      signal.signalType = SignalTypes.BUILD_FAILED then
    SignalHandlers.handleBuildEvent signal rinfo now st1
  else if signal.signalType = SignalTypes.VERIFICATION_STARTED ∨
      signal.signalType = SignalTypes.VERIFICATION_RESULT ∨
      signal.signalType = SignalTypes.CLAIM_EXTRACTED then
    SignalHandlers.handleVerificationEvent signal rinfo now st1
  else if signal.signalType = SignalTypes.VALIDATION_APPROVED ∨
      signal.signalType = SignalTypes.VALIDATION_REJECTED then
    SignalHandlers.handleValidationEvent signal rinfo st1
  else if signal.signalType = SignalTypes.HANDOFF_REQUEST ∨
      signal.signalType = SignalTypes.HANDOFF_APPROVED ∨
      signal.signalType = SignalTypes.HANDOFF_COMPLETED ∨
      signal.signalType = SignalTypes.MODE_SWITCH then
    SignalHandlers.handleCoordinationEvent signal rinfo now st1
  else if signal.signalType = SignalTypes.ASTROSENTRY_EVENT then
    SignalHandlers.handleAstrosentryEvent signal rinfo now st1
  else if signal.signalType = SignalTypes.ERROR then
    SignalHandlers.handleError signal rinfo st1
  else
    SignalHandlers.handleUnknownSignal signal rinfo st1

/-- `route`: log the received signal to the console, always record the
universal attention event, then dispatch on the signal type exactly as the
source's switch statement does. -/
def SignalHandlers.route (serverId : String) (signal : Signal) (rinfo : RemoteInfo)
    (now : Nat) (store : Store) : RouteResult :=
  SignalHandlers.routeDispatch serverId signal rinfo now
    (SignalHandlers.logAttentionEvent signal rinfo now
      { store := store, trace := [Effect.consoleError "[Handlers] Received"] })

/-- Recognise an attention-event insert attempt in a trace. -/
def isAttnInsert : Effect → Bool
  | Effect.insertAttentionEvent _ => true
  | _ => false

/-- Recognise the universal audit insert: an attention event of
`event_type = signal`. -/
def isSignalAttn : Effect → Bool
  | Effect.insertAttentionEvent e => e.event_type == "signal"
  | _ => false

/-- Recognise a notification with the given name. -/
def isEmitNamed (n : String) : Effect → Bool
  | Effect.emit m _ => m == n
  | _ => false

/-- Recognise a `lesson_learned` notification tagged `build_failure`. -/
def isLessonBuildFailure : Effect → Bool
  | Effect.emit m v =>
    m == "lesson_learned" && (getFieldV v "type").beq (JsVal.str "build_failure")
  | _ => false

/-- Recognise an `unknown_signal` notification carrying the numeric type `t`. -/
def isUnknownEmitWith (t : Nat) : Effect → Bool
  | Effect.emit m v => m == "unknown_signal" && (getFieldV v "type").beq (JsVal.num (t : ℚ))
  | _ => false

/-- The operations whose insertion a trace attempted. -/
def opsAttempted (tr : List Effect) : List Operation :=
  tr.filterMap (fun e =>
    match e with
    | Effect.insertOperation op => some op
    | _ => none)

/-- The replies a trace sent, with their destinations. -/
def sendsOf (tr : List Effect) : List (String × Nat × Signal) :=
  tr.filterMap (fun e =>
    match e with
    | Effect.sendResponse h p s => some (h, p, s)
    | _ => none)

/-- The signal types the router's switch statement handles explicitly;
everything else falls to the unknown-signal handler. -/
def handledSignalType (t : Nat) : Bool :=
  decide (t = SignalTypes.HEARTBEAT ∨ t = SignalTypes.DOCK_REQUEST ∨
    t = SignalTypes.UNDOCK ∨ t = SignalTypes.SHUTDOWN ∨
    t = SignalTypes.FILE_DISCOVERED ∨ t = SignalTypes.FILE_INDEXED ∨
    t = SignalTypes.FILE_MODIFIED ∨ t = SignalTypes.FILE_DELETED ∨
    t = SignalTypes.SEARCH_STARTED ∨ t = SignalTypes.SEARCH_COMPLETED ∨
    t = SignalTypes.SEARCH_RESULT ∨ t = SignalTypes.BUILD_STARTED ∨
    t = SignalTypes.BUILD_COMPLETED ∨ t = SignalTypes.BUILD_FAILED ∨
    t = SignalTypes.VERIFICATION_STARTED ∨ t = SignalTypes.VERIFICATION_RESULT ∨
    t = SignalTypes.CLAIM_EXTRACTED ∨ t = SignalTypes.VALIDATION_APPROVED ∨
    t = SignalTypes.VALIDATION_REJECTED ∨ t = SignalTypes.HANDOFF_REQUEST ∨
    t = SignalTypes.HANDOFF_APPROVED ∨ t = SignalTypes.HANDOFF_COMPLETED ∨
    t = SignalTypes.MODE_SWITCH ∨ t = SignalTypes.ASTROSENTRY_EVENT ∨
    t = SignalTypes.ERROR)

/-- The signal types whose family handler inserts a second attention event
beyond the universal one. -/
def secondAttention (t : Nat) : Bool :=
  decide (t = SignalTypes.FILE_DISCOVERED ∨ t = SignalTypes.FILE_INDEXED ∨
    t = SignalTypes.FILE_MODIFIED ∨ t = SignalTypes.FILE_DELETED ∨
    t = SignalTypes.SEARCH_STARTED ∨ t = SignalTypes.BUILD_STARTED ∨
    t = SignalTypes.HANDOFF_REQUEST ∨ t = SignalTypes.HANDOFF_APPROVED ∨
    t = SignalTypes.HANDOFF_COMPLETED ∨ t = SignalTypes.MODE_SWITCH ∨
    t = SignalTypes.ASTROSENTRY_EVENT)

/-- A sample network origin. -/
def rinfo0 : RemoteInfo := { address := "10.0.0.1", port := 4000 }

/-- An empty, healthy store. -/
def store0 : Store := { attentionEvents := [], operations := [], attentionFails := false }

/-- An empty store whose attention-event inserts fail. -/
def failStore : Store := { attentionEvents := [], operations := [], attentionFails := true }

/-- A concrete file-discovered signal. -/
def fileSig : Signal :=
  { signalType := SignalTypes.FILE_DISCOVERED
  , version := 0x0100
  , timestamp := 100
  , payload := [("sender", JsVal.str "indexer"), ("path", JsVal.str "/tmp/a.txt")] }

lemma handleHeartbeat_err (signal : Signal) (rinfo : RemoteInfo) (st : RouteState) :
    (SignalHandlers.handleHeartbeat signal rinfo st).err = none := rfl

lemma handleDockRequest_err (serverId : String) (signal : Signal) (rinfo : RemoteInfo)
    (now : Nat) (st : RouteState) :
    (SignalHandlers.handleDockRequest serverId signal rinfo now st).err = none := rfl

lemma handleShutdown_err (signal : Signal) (rinfo : RemoteInfo) (st : RouteState) :
    (SignalHandlers.handleShutdown signal rinfo st).err = none := rfl

lemma handleVerificationEvent_err (signal : Signal) (rinfo : RemoteInfo) (now : Nat)
    (st : RouteState) :
    (SignalHandlers.handleVerificationEvent signal rinfo now st).err = none := rfl

lemma handleValidationEvent_err (signal : Signal) (rinfo : RemoteInfo) (st : RouteState) :
    (SignalHandlers.handleValidationEvent signal rinfo st).err = none := rfl

lemma handleError_err (signal : Signal) (rinfo : RemoteInfo) (st : RouteState) :
    (SignalHandlers.handleError signal rinfo st).err = none := rfl

lemma handleUnknownSignal_err (signal : Signal) (rinfo : RemoteInfo) (st : RouteState) :
    (SignalHandlers.handleUnknownSignal signal rinfo st).err = none := rfl

lemma handleFileEvent_err (signal : Signal) (rinfo : RemoteInfo) (now : Nat) (st : RouteState)
    (h : st.store.attentionFails = false) :
    (SignalHandlers.handleFileEvent signal rinfo now st).err = none := by
  unfold SignalHandlers.handleFileEvent RouteState.insertAttentionEventR
    Store.insertAttentionEvent
  simp [h, RouteResult.done]

lemma handleSearchEvent_err (signal : Signal) (rinfo : RemoteInfo) (now : Nat) (st : RouteState)
    (h : st.store.attentionFails = false) :
    (SignalHandlers.handleSearchEvent signal rinfo now st).err = none := by
  unfold SignalHandlers.handleSearchEvent RouteState.insertAttentionEventR
    Store.insertAttentionEvent
  by_cases ht : signal.signalType = SignalTypes.SEARCH_STARTED <;>
    simp [ht, h, RouteResult.done]

lemma handleBuildEvent_err (signal : Signal) (rinfo : RemoteInfo) (now : Nat) (st : RouteState)
    (h : st.store.attentionFails = false) :
    (SignalHandlers.handleBuildEvent signal rinfo now st).err = none := by
  unfold SignalHandlers.handleBuildEvent RouteState.insertAttentionEventR
    Store.insertAttentionEvent
  by_cases ht : signal.signalType = SignalTypes.BUILD_STARTED <;>
    simp [ht, h, RouteResult.done]

lemma handleCoordinationEvent_err (signal : Signal) (rinfo : RemoteInfo) (now : Nat)
    (st : RouteState) (h : st.store.attentionFails = false) :
    (SignalHandlers.handleCoordinationEvent signal rinfo now st).err = none := by
  unfold SignalHandlers.handleCoordinationEvent RouteState.insertAttentionEventR
    Store.insertAttentionEvent
  simp [h, RouteResult.done]

lemma handleAstrosentryEvent_err (signal : Signal) (rinfo : RemoteInfo) (now : Nat)
    (st : RouteState) (h : st.store.attentionFails = false) :
    (SignalHandlers.handleAstrosentryEvent signal rinfo now st).err = none := by
  unfold SignalHandlers.handleAstrosentryEvent RouteState.insertAttentionEventR
    Store.insertAttentionEvent
  simp [h, RouteResult.done]

lemma logAttentionEvent_flag (signal : Signal) (rinfo : RemoteInfo) (now : Nat)
    (st : RouteState) :
    (SignalHandlers.logAttentionEvent signal rinfo now st).store.attentionFails =
      st.store.attentionFails := by
  unfold SignalHandlers.logAttentionEvent Store.insertAttentionEvent
  by_cases h : st.store.attentionFails <;> simp [h]

/-- Claim C1: the claim that `route` absorbs every internal failure is false on the
code: a store failure while inserting the AttentionEvent inside the file
family handler is not caught, so it escapes the routing call.  Concretely, a
file-discovered signal routed against a store whose attention-event inserts
fail makes `route` raise. -/
theorem route_raises_on_family_attention_insert_failure :
    (SignalHandlers.route "consciousness-mcp" fileSig rinfo0 5 failStore).err =
      some "storage error" := by decide

/-- C1 (amended): `route` absorbs failures of the universal attention-event
insert and of every Operation insert (duplicates included); provided the
store's attention-event inserts succeed, no internal failure escapes the
routing call, for every signal and sender. -/
lemma routeDispatch_err (serverId : String) (signal : Signal) (rinfo : RemoteInfo)
    (now : Nat) (st1 : RouteState) (h1 : st1.store.attentionFails = false) :
    (SignalHandlers.routeDispatch serverId signal rinfo now st1).err = none := by
  unfold SignalHandlers.routeDispatch
  repeat
    first
      | exact handleHeartbeat_err _ _ _
      | exact handleDockRequest_err _ _ _ _ _
      | exact handleShutdown_err _ _ _
      | exact handleFileEvent_err _ _ _ _ h1
      | exact handleSearchEvent_err _ _ _ _ h1
      | exact handleBuildEvent_err _ _ _ _ h1
      | exact handleVerificationEvent_err _ _ _ _
      | exact handleValidationEvent_err _ _ _
      | exact handleCoordinationEvent_err _ _ _ _ h1
      | exact handleAstrosentryEvent_err _ _ _ _ h1
      | exact handleError_err _ _ _
      | exact handleUnknownSignal_err _ _ _
      | split

theorem route_err_none_of_attention_ok (serverId : String) (signal : Signal)
    (rinfo : RemoteInfo) (now : Nat) (store : Store)
    (h : store.attentionFails = false) :
    (SignalHandlers.route serverId signal rinfo now store).err = none := by
  unfold SignalHandlers.route
  exact routeDispatch_err _ _ _ _ _ (by rw [logAttentionEvent_flag]; exact h)

/-- Witness for the amended claim C1 at a concrete signal and healthy store. -/
theorem route_err_none_of_attention_ok_witness :
    failStore.attentionFails = true ∧
    (SignalHandlers.route "consciousness-mcp" fileSig rinfo0 5 store0).err = none :=
  ⟨rfl, route_err_none_of_attention_ok "consciousness-mcp" fileSig rinfo0 5 store0 rfl⟩

@[simp] lemma isAttnInsert_insertAttn (e : AttentionEvent) :
    isAttnInsert (Effect.insertAttentionEvent e) = true := rfl

@[simp] lemma isAttnInsert_insertOp (op : Operation) :
    isAttnInsert (Effect.insertOperation op) = false := rfl

@[simp] lemma isAttnInsert_emit (n : String) (v : JsVal) :
    isAttnInsert (Effect.emit n v) = false := rfl

@[simp] lemma isAttnInsert_send (h : String) (p : Nat) (s : Signal) :
    isAttnInsert (Effect.sendResponse h p s) = false := rfl

@[simp] lemma isAttnInsert_console (m : String) :
    isAttnInsert (Effect.consoleError m) = false := rfl

@[simp] lemma isSignalAttn_insertAttn (e : AttentionEvent) :
    isSignalAttn (Effect.insertAttentionEvent e) = (e.event_type == "signal") := rfl

@[simp] lemma isSignalAttn_insertOp (op : Operation) :
    isSignalAttn (Effect.insertOperation op) = false := rfl

@[simp] lemma isSignalAttn_emit (n : String) (v : JsVal) :
    isSignalAttn (Effect.emit n v) = false := rfl

@[simp] lemma isSignalAttn_send (h : String) (p : Nat) (s : Signal) :
    isSignalAttn (Effect.sendResponse h p s) = false := rfl

@[simp] lemma isSignalAttn_console (m : String) :
    isSignalAttn (Effect.consoleError m) = false := rfl

@[simp] lemma emitE_trace (st : RouteState) (n : String) (v : JsVal) :
    (st.emitE n v).trace = st.trace ++ [Effect.emit n v] := rfl

@[simp] lemma logE_trace (st : RouteState) (m : String) :
    (st.logE m).trace = st.trace ++ [Effect.consoleError m] := rfl

@[simp] lemma sendE_trace (st : RouteState) (h : String) (p : Nat) (s : Signal) :
    (st.sendE h p s).trace = st.trace ++ [Effect.sendResponse h p s] := rfl

@[simp] lemma emitE_store (st : RouteState) (n : String) (v : JsVal) :
    (st.emitE n v).store = st.store := rfl

@[simp] lemma logE_store (st : RouteState) (m : String) :
    (st.logE m).store = st.store := rfl

@[simp] lemma sendE_store (st : RouteState) (h : String) (p : Nat) (s : Signal) :
    (st.sendE h p s).store = st.store := rfl

@[simp] lemma done_err (st : RouteState) : (RouteResult.done st).err = none := rfl

@[simp] lemma done_state (st : RouteState) : (RouteResult.done st).state = st := rfl

lemma tryInsertOperation_trace (st : RouteState) (op : Operation) :
    (st.tryInsertOperation op).trace = st.trace ++ [Effect.insertOperation op] := by
  unfold RouteState.tryInsertOperation Store.insertOperation
  by_cases hc : st.store.operations.any (fun o => o.operation_id.beq op.operation_id) = true <;>
    simp [hc]

lemma tryInsertOperation_flag (st : RouteState) (op : Operation) :
    (st.tryInsertOperation op).store.attentionFails = st.store.attentionFails := by
  unfold RouteState.tryInsertOperation Store.insertOperation
  by_cases hc : st.store.operations.any (fun o => o.operation_id.beq op.operation_id) = true <;>
    simp [hc]

@[simp] lemma attnOf_event_type (signal : Signal) (rinfo : RemoteInfo) (now : Nat) :
    (SignalHandlers.attnOf signal rinfo now).event_type = "signal" := rfl

@[simp] lemma attnOf_target (signal : Signal) (rinfo : RemoteInfo) (now : Nat) :
    (SignalHandlers.attnOf signal rinfo now).target =
      JsVal.str (getSignalName signal.signalType) := rfl

lemma logAttentionEvent_shape (signal : Signal) (rinfo : RemoteInfo) (now : Nat)
    (st : RouteState) :
    (SignalHandlers.logAttentionEvent signal rinfo now st).trace =
        st.trace ++ [Effect.insertAttentionEvent (SignalHandlers.attnOf signal rinfo now)] ∨
      (SignalHandlers.logAttentionEvent signal rinfo now st).trace =
        st.trace ++ [Effect.insertAttentionEvent (SignalHandlers.attnOf signal rinfo now),
          Effect.consoleError "[Handlers] Failed to log attention event"] := by
  unfold SignalHandlers.logAttentionEvent Store.insertAttentionEvent
  by_cases hf : st.store.attentionFails = true <;> simp [hf]

lemma logAttentionEvent_attnCount (signal : Signal) (rinfo : RemoteInfo) (now : Nat)
    (st : RouteState) :
    (SignalHandlers.logAttentionEvent signal rinfo now st).trace.countP isAttnInsert =
      st.trace.countP isAttnInsert + 1 := by
  rcases logAttentionEvent_shape signal rinfo now st with h | h <;>
    simp [h, List.countP_append]

lemma logAttentionEvent_signalCount (signal : Signal) (rinfo : RemoteInfo) (now : Nat)
    (st : RouteState) :
    (SignalHandlers.logAttentionEvent signal rinfo now st).trace.countP isSignalAttn =
      st.trace.countP isSignalAttn + 1 := by
  rcases logAttentionEvent_shape signal rinfo now st with h | h <;>
    simp [h, List.countP_append]

lemma handleHeartbeat_attnCount (signal : Signal) (rinfo : RemoteInfo) (st : RouteState) :
    (SignalHandlers.handleHeartbeat signal rinfo st).state.trace.countP isAttnInsert =
      st.trace.countP isAttnInsert := by
  unfold SignalHandlers.handleHeartbeat
  simp [List.countP_append]

lemma handleHeartbeat_signalCount (signal : Signal) (rinfo : RemoteInfo) (st : RouteState) :
    (SignalHandlers.handleHeartbeat signal rinfo st).state.trace.countP isSignalAttn =
      st.trace.countP isSignalAttn := by
  unfold SignalHandlers.handleHeartbeat
  simp [List.countP_append]

lemma handleDockRequest_attnCount (serverId : String) (signal : Signal) (rinfo : RemoteInfo)
    (now : Nat) (st : RouteState) :
    (SignalHandlers.handleDockRequest serverId signal rinfo now st).state.trace.countP
        isAttnInsert = st.trace.countP isAttnInsert := by
  unfold SignalHandlers.handleDockRequest
  simp [List.countP_append]

lemma handleDockRequest_signalCount (serverId : String) (signal : Signal) (rinfo : RemoteInfo)
    (now : Nat) (st : RouteState) :
    (SignalHandlers.handleDockRequest serverId signal rinfo now st).state.trace.countP
        isSignalAttn = st.trace.countP isSignalAttn := by
  unfold SignalHandlers.handleDockRequest
  simp [List.countP_append]

lemma handleShutdown_attnCount (signal : Signal) (rinfo : RemoteInfo) (st : RouteState) :
    (SignalHandlers.handleShutdown signal rinfo st).state.trace.countP isAttnInsert =
      st.trace.countP isAttnInsert := by
  unfold SignalHandlers.handleShutdown
  simp [List.countP_append]

lemma handleShutdown_signalCount (signal : Signal) (rinfo : RemoteInfo) (st : RouteState) :
    (SignalHandlers.handleShutdown signal rinfo st).state.trace.countP isSignalAttn =
      st.trace.countP isSignalAttn := by
  unfold SignalHandlers.handleShutdown
  simp [List.countP_append]

lemma handleValidationEvent_attnCount (signal : Signal) (rinfo : RemoteInfo) (st : RouteState) :
    (SignalHandlers.handleValidationEvent signal rinfo st).state.trace.countP isAttnInsert =
      st.trace.countP isAttnInsert := by
  unfold SignalHandlers.handleValidationEvent
  by_cases ht : signal.signalType = SignalTypes.VALIDATION_APPROVED <;>
    simp [ht, List.countP_append]

lemma handleValidationEvent_signalCount (signal : Signal) (rinfo : RemoteInfo)
    (st : RouteState) :
    (SignalHandlers.handleValidationEvent signal rinfo st).state.trace.countP isSignalAttn =
      st.trace.countP isSignalAttn := by
  unfold SignalHandlers.handleValidationEvent
  by_cases ht : signal.signalType = SignalTypes.VALIDATION_APPROVED <;>
    simp [ht, List.countP_append]

lemma handleError_attnCount (signal : Signal) (rinfo : RemoteInfo) (st : RouteState) :
    (SignalHandlers.handleError signal rinfo st).state.trace.countP isAttnInsert =
      st.trace.countP isAttnInsert := by
  unfold SignalHandlers.handleError
  simp [List.countP_append]

lemma handleError_signalCount (signal : Signal) (rinfo : RemoteInfo) (st : RouteState) :
    (SignalHandlers.handleError signal rinfo st).state.trace.countP isSignalAttn =
      st.trace.countP isSignalAttn := by
  unfold SignalHandlers.handleError
  simp [List.countP_append]

lemma handleUnknownSignal_attnCount (signal : Signal) (rinfo : RemoteInfo) (st : RouteState) :
    (SignalHandlers.handleUnknownSignal signal rinfo st).state.trace.countP isAttnInsert =
      st.trace.countP isAttnInsert := by
  unfold SignalHandlers.handleUnknownSignal
  simp [List.countP_append]

lemma handleUnknownSignal_signalCount (signal : Signal) (rinfo : RemoteInfo) (st : RouteState) :
    (SignalHandlers.handleUnknownSignal signal rinfo st).state.trace.countP isSignalAttn =
      st.trace.countP isSignalAttn := by
  unfold SignalHandlers.handleUnknownSignal
  simp [List.countP_append]

lemma handleVerificationEvent_attnCount (signal : Signal) (rinfo : RemoteInfo) (now : Nat)
    (st : RouteState) :
    (SignalHandlers.handleVerificationEvent signal rinfo now st).state.trace.countP
        isAttnInsert = st.trace.countP isAttnInsert := by
  unfold SignalHandlers.handleVerificationEvent
  by_cases ht : signal.signalType = SignalTypes.VERIFICATION_RESULT <;>
    simp [ht, List.countP_append, tryInsertOperation_trace]

lemma handleVerificationEvent_signalCount (signal : Signal) (rinfo : RemoteInfo) (now : Nat)
    (st : RouteState) :
    (SignalHandlers.handleVerificationEvent signal rinfo now st).state.trace.countP
        isSignalAttn = st.trace.countP isSignalAttn := by
  unfold SignalHandlers.handleVerificationEvent
  by_cases ht : signal.signalType = SignalTypes.VERIFICATION_RESULT <;>
    simp [ht, List.countP_append, tryInsertOperation_trace]

lemma handleFileEvent_attnCount (signal : Signal) (rinfo : RemoteInfo) (now : Nat)
    (st : RouteState) :
    (SignalHandlers.handleFileEvent signal rinfo now st).state.trace.countP isAttnInsert =
      st.trace.countP isAttnInsert + 1 := by
  unfold SignalHandlers.handleFileEvent RouteState.insertAttentionEventR
    Store.insertAttentionEvent
  by_cases hf : st.store.attentionFails = true <;> simp [hf, List.countP_append]

lemma handleFileEvent_signalCount (signal : Signal) (rinfo : RemoteInfo) (now : Nat)
    (st : RouteState) :
    (SignalHandlers.handleFileEvent signal rinfo now st).state.trace.countP isSignalAttn =
      st.trace.countP isSignalAttn := by
  unfold SignalHandlers.handleFileEvent RouteState.insertAttentionEventR
    Store.insertAttentionEvent
  by_cases hf : st.store.attentionFails = true <;> simp [hf, List.countP_append]

lemma handleCoordinationEvent_attnCount (signal : Signal) (rinfo : RemoteInfo) (now : Nat)
    (st : RouteState) :
    (SignalHandlers.handleCoordinationEvent signal rinfo now st).state.trace.countP
        isAttnInsert = st.trace.countP isAttnInsert + 1 := by
  unfold SignalHandlers.handleCoordinationEvent RouteState.insertAttentionEventR
    Store.insertAttentionEvent
  by_cases hf : st.store.attentionFails = true <;> simp [hf, List.countP_append]

lemma handleCoordinationEvent_signalCount (signal : Signal) (rinfo : RemoteInfo) (now : Nat)
    (st : RouteState) :
    (SignalHandlers.handleCoordinationEvent signal rinfo now st).state.trace.countP
        isSignalAttn = st.trace.countP isSignalAttn := by
  unfold SignalHandlers.handleCoordinationEvent RouteState.insertAttentionEventR
    Store.insertAttentionEvent
  by_cases hf : st.store.attentionFails = true <;> simp [hf, List.countP_append]

lemma handleAstrosentryEvent_attnCount (signal : Signal) (rinfo : RemoteInfo) (now : Nat)
    (st : RouteState) :
    (SignalHandlers.handleAstrosentryEvent signal rinfo now st).state.trace.countP
        isAttnInsert = st.trace.countP isAttnInsert + 1 := by
  unfold SignalHandlers.handleAstrosentryEvent RouteState.insertAttentionEventR
    Store.insertAttentionEvent
  by_cases hf : st.store.attentionFails = true <;>
    by_cases ho : (getField signal.payload "outcome").truthy = true <;>
    by_cases hp : (getField signal.payload "outcome").beq (JsVal.str "failure") = true <;>
    simp [hf, ho, hp, List.countP_append, tryInsertOperation_trace]

lemma handleAstrosentryEvent_signalCount (signal : Signal) (rinfo : RemoteInfo) (now : Nat)
    (st : RouteState) :
    (SignalHandlers.handleAstrosentryEvent signal rinfo now st).state.trace.countP
        isSignalAttn = st.trace.countP isSignalAttn := by
  unfold SignalHandlers.handleAstrosentryEvent RouteState.insertAttentionEventR
    Store.insertAttentionEvent
  by_cases hf : st.store.attentionFails = true <;>
    by_cases ho : (getField signal.payload "outcome").truthy = true <;>
    by_cases hp : (getField signal.payload "outcome").beq (JsVal.str "failure") = true <;>
    simp [hf, ho, hp, List.countP_append, tryInsertOperation_trace]

@[simp] lemma ss_ne_sc : SignalTypes.SEARCH_STARTED ≠ SignalTypes.SEARCH_COMPLETED := by decide

@[simp] lemma sc_ne_ss : SignalTypes.SEARCH_COMPLETED ≠ SignalTypes.SEARCH_STARTED := by decide

@[simp] lemma sr_ne_ss : SignalTypes.SEARCH_RESULT ≠ SignalTypes.SEARCH_STARTED := by decide

@[simp] lemma sr_ne_sc : SignalTypes.SEARCH_RESULT ≠ SignalTypes.SEARCH_COMPLETED := by decide

@[simp] lemma bs_ne_bc : SignalTypes.BUILD_STARTED ≠ SignalTypes.BUILD_COMPLETED := by decide

@[simp] lemma bs_ne_bf : SignalTypes.BUILD_STARTED ≠ SignalTypes.BUILD_FAILED := by decide

@[simp] lemma bc_ne_bs : SignalTypes.BUILD_COMPLETED ≠ SignalTypes.BUILD_STARTED := by decide

@[simp] lemma bc_ne_bf : SignalTypes.BUILD_COMPLETED ≠ SignalTypes.BUILD_FAILED := by decide

@[simp] lemma bf_ne_bs : SignalTypes.BUILD_FAILED ≠ SignalTypes.BUILD_STARTED := by decide

@[simp] lemma bf_ne_bc : SignalTypes.BUILD_FAILED ≠ SignalTypes.BUILD_COMPLETED := by decide

@[simp] lemma vs_ne_vr : SignalTypes.VERIFICATION_STARTED ≠ SignalTypes.VERIFICATION_RESULT := by decide

@[simp] lemma ce_ne_vr : SignalTypes.CLAIM_EXTRACTED ≠ SignalTypes.VERIFICATION_RESULT := by decide

@[simp] lemma vr_ne_va : SignalTypes.VALIDATION_REJECTED ≠ SignalTypes.VALIDATION_APPROVED := by decide

lemma handleSearchEvent_attnCount (signal : Signal) (rinfo : RemoteInfo) (now : Nat)
    (st : RouteState) :
    (SignalHandlers.handleSearchEvent signal rinfo now st).state.trace.countP isAttnInsert =
      st.trace.countP isAttnInsert +
        (if signal.signalType = SignalTypes.SEARCH_STARTED then 1 else 0) := by
  unfold SignalHandlers.handleSearchEvent RouteState.insertAttentionEventR
    Store.insertAttentionEvent
  by_cases ht : signal.signalType = SignalTypes.SEARCH_STARTED <;>
    by_cases hc : signal.signalType = SignalTypes.SEARCH_COMPLETED <;>
    by_cases hf : st.store.attentionFails = true <;>
    simp [ht, hc, hf, List.countP_append, tryInsertOperation_trace]

lemma handleSearchEvent_signalCount (signal : Signal) (rinfo : RemoteInfo) (now : Nat)
    (st : RouteState) :
    (SignalHandlers.handleSearchEvent signal rinfo now st).state.trace.countP isSignalAttn =
      st.trace.countP isSignalAttn := by
  unfold SignalHandlers.handleSearchEvent RouteState.insertAttentionEventR
    Store.insertAttentionEvent
  by_cases ht : signal.signalType = SignalTypes.SEARCH_STARTED <;>
    by_cases hc : signal.signalType = SignalTypes.SEARCH_COMPLETED <;>
    by_cases hf : st.store.attentionFails = true <;>
    simp [ht, hc, hf, List.countP_append, tryInsertOperation_trace]

lemma handleBuildEvent_attnCount (signal : Signal) (rinfo : RemoteInfo) (now : Nat)
    (st : RouteState) :
    (SignalHandlers.handleBuildEvent signal rinfo now st).state.trace.countP isAttnInsert =
      st.trace.countP isAttnInsert +
        (if signal.signalType = SignalTypes.BUILD_STARTED then 1 else 0) := by
  unfold SignalHandlers.handleBuildEvent RouteState.insertAttentionEventR
    Store.insertAttentionEvent
  by_cases ht : signal.signalType = SignalTypes.BUILD_STARTED <;>
    by_cases hc : signal.signalType = SignalTypes.BUILD_COMPLETED <;>
    by_cases hf : st.store.attentionFails = true <;>
    by_cases hb : signal.signalType = SignalTypes.BUILD_FAILED <;>
    simp [ht, hc, hf, hb, List.countP_append, tryInsertOperation_trace,
      SignalHandlers.buildOp]

lemma handleBuildEvent_signalCount (signal : Signal) (rinfo : RemoteInfo) (now : Nat)
    (st : RouteState) :
    (SignalHandlers.handleBuildEvent signal rinfo now st).state.trace.countP isSignalAttn =
      st.trace.countP isSignalAttn := by
  unfold SignalHandlers.handleBuildEvent RouteState.insertAttentionEventR
    Store.insertAttentionEvent
  by_cases ht : signal.signalType = SignalTypes.BUILD_STARTED <;>
    by_cases hc : signal.signalType = SignalTypes.BUILD_COMPLETED <;>
    by_cases hf : st.store.attentionFails = true <;>
    by_cases hb : signal.signalType = SignalTypes.BUILD_FAILED <;>
    simp [ht, hc, hf, hb, List.countP_append, tryInsertOperation_trace,
      SignalHandlers.buildOp]

lemma handleHeartbeat_take (signal : Signal) (rinfo : RemoteInfo) (st : RouteState)
    (n : Nat) (hn : n ≤ st.trace.length) :
    (SignalHandlers.handleHeartbeat signal rinfo st).state.trace.take n = st.trace.take n := by
  unfold SignalHandlers.handleHeartbeat
  simp [List.append_assoc, List.take_append_of_le_length hn]

lemma handleDockRequest_take (serverId : String) (signal : Signal) (rinfo : RemoteInfo)
    (now : Nat) (st : RouteState) (n : Nat) (hn : n ≤ st.trace.length) :
    (SignalHandlers.handleDockRequest serverId signal rinfo now st).state.trace.take n =
      st.trace.take n := by
  unfold SignalHandlers.handleDockRequest
  simp [List.append_assoc, List.take_append_of_le_length hn]

lemma handleShutdown_take (signal : Signal) (rinfo : RemoteInfo) (st : RouteState)
    (n : Nat) (hn : n ≤ st.trace.length) :
    (SignalHandlers.handleShutdown signal rinfo st).state.trace.take n = st.trace.take n := by
  unfold SignalHandlers.handleShutdown
  simp [List.append_assoc, List.take_append_of_le_length hn]

lemma handleValidationEvent_take (signal : Signal) (rinfo : RemoteInfo) (st : RouteState)
    (n : Nat) (hn : n ≤ st.trace.length) :
    (SignalHandlers.handleValidationEvent signal rinfo st).state.trace.take n =
      st.trace.take n := by
  unfold SignalHandlers.handleValidationEvent
  by_cases ht : signal.signalType = SignalTypes.VALIDATION_APPROVED <;>
    simp [ht, List.append_assoc, List.take_append_of_le_length hn]

lemma handleError_take (signal : Signal) (rinfo : RemoteInfo) (st : RouteState)
    (n : Nat) (hn : n ≤ st.trace.length) :
    (SignalHandlers.handleError signal rinfo st).state.trace.take n = st.trace.take n := by
  unfold SignalHandlers.handleError
  simp [List.append_assoc, List.take_append_of_le_length hn]

lemma handleUnknownSignal_take (signal : Signal) (rinfo : RemoteInfo) (st : RouteState)
    (n : Nat) (hn : n ≤ st.trace.length) :
    (SignalHandlers.handleUnknownSignal signal rinfo st).state.trace.take n =
      st.trace.take n := by
  unfold SignalHandlers.handleUnknownSignal
  simp [List.append_assoc, List.take_append_of_le_length hn]

lemma handleVerificationEvent_take (signal : Signal) (rinfo : RemoteInfo) (now : Nat)
    (st : RouteState) (n : Nat) (hn : n ≤ st.trace.length) :
    (SignalHandlers.handleVerificationEvent signal rinfo now st).state.trace.take n =
      st.trace.take n := by
  unfold SignalHandlers.handleVerificationEvent
  by_cases ht : signal.signalType = SignalTypes.VERIFICATION_RESULT <;>
    simp [ht, tryInsertOperation_trace, List.append_assoc, List.take_append_of_le_length hn]

lemma handleFileEvent_take (signal : Signal) (rinfo : RemoteInfo) (now : Nat)
    (st : RouteState) (n : Nat) (hn : n ≤ st.trace.length) :
    (SignalHandlers.handleFileEvent signal rinfo now st).state.trace.take n =
      st.trace.take n := by
  unfold SignalHandlers.handleFileEvent RouteState.insertAttentionEventR
    Store.insertAttentionEvent
  by_cases hf : st.store.attentionFails = true <;>
    simp [hf, List.append_assoc, List.take_append_of_le_length hn]

lemma handleCoordinationEvent_take (signal : Signal) (rinfo : RemoteInfo) (now : Nat)
    (st : RouteState) (n : Nat) (hn : n ≤ st.trace.length) :
    (SignalHandlers.handleCoordinationEvent signal rinfo now st).state.trace.take n =
      st.trace.take n := by
  unfold SignalHandlers.handleCoordinationEvent RouteState.insertAttentionEventR
    Store.insertAttentionEvent
  by_cases hf : st.store.attentionFails = true <;>
    simp [hf, List.append_assoc, List.take_append_of_le_length hn]

lemma handleSearchEvent_take (signal : Signal) (rinfo : RemoteInfo) (now : Nat)
    (st : RouteState) (n : Nat) (hn : n ≤ st.trace.length) :
    (SignalHandlers.handleSearchEvent signal rinfo now st).state.trace.take n =
      st.trace.take n := by
  unfold SignalHandlers.handleSearchEvent RouteState.insertAttentionEventR
    Store.insertAttentionEvent
  by_cases ht : signal.signalType = SignalTypes.SEARCH_STARTED <;>
    by_cases hc : signal.signalType = SignalTypes.SEARCH_COMPLETED <;>
    by_cases hf : st.store.attentionFails = true <;>
    simp [ht, hc, hf, tryInsertOperation_trace, List.append_assoc,
      List.take_append_of_le_length hn]

lemma handleBuildEvent_take (signal : Signal) (rinfo : RemoteInfo) (now : Nat)
    (st : RouteState) (n : Nat) (hn : n ≤ st.trace.length) :
    (SignalHandlers.handleBuildEvent signal rinfo now st).state.trace.take n =
      st.trace.take n := by
  unfold SignalHandlers.handleBuildEvent RouteState.insertAttentionEventR
    Store.insertAttentionEvent
  by_cases ht : signal.signalType = SignalTypes.BUILD_STARTED <;>
    by_cases hc : signal.signalType = SignalTypes.BUILD_COMPLETED <;>
    by_cases hf : st.store.attentionFails = true <;>
    by_cases hb : signal.signalType = SignalTypes.BUILD_FAILED <;>
    simp [ht, hc, hf, hb, tryInsertOperation_trace, SignalHandlers.buildOp,
      List.append_assoc, List.take_append_of_le_length hn]

lemma handleAstrosentryEvent_take (signal : Signal) (rinfo : RemoteInfo) (now : Nat)
    (st : RouteState) (n : Nat) (hn : n ≤ st.trace.length) :
    (SignalHandlers.handleAstrosentryEvent signal rinfo now st).state.trace.take n =
      st.trace.take n := by
  unfold SignalHandlers.handleAstrosentryEvent RouteState.insertAttentionEventR
    Store.insertAttentionEvent
  by_cases hf : st.store.attentionFails = true <;>
    by_cases ho : (getField signal.payload "outcome").truthy = true <;>
    by_cases hp : (getField signal.payload "outcome").beq (JsVal.str "failure") = true <;>
    simp [hf, ho, hp, tryInsertOperation_trace, List.append_assoc,
      List.take_append_of_le_length hn]

lemma routeDispatch_signalCount (serverId : String) (signal : Signal) (rinfo : RemoteInfo)
    (now : Nat) (st1 : RouteState) :
    (SignalHandlers.routeDispatch serverId signal rinfo now st1).state.trace.countP
        isSignalAttn = st1.trace.countP isSignalAttn := by
  unfold SignalHandlers.routeDispatch
  repeat
    first
      | exact handleHeartbeat_signalCount _ _ _
      | exact handleDockRequest_signalCount _ _ _ _ _
      | exact handleShutdown_signalCount _ _ _
      | exact handleFileEvent_signalCount _ _ _ _
      | exact handleSearchEvent_signalCount _ _ _ _
      | exact handleBuildEvent_signalCount _ _ _ _
      | exact handleVerificationEvent_signalCount _ _ _ _
      | exact handleValidationEvent_signalCount _ _ _
      | exact handleCoordinationEvent_signalCount _ _ _ _
      | exact handleAstrosentryEvent_signalCount _ _ _ _
      | exact handleError_signalCount _ _ _
      | exact handleUnknownSignal_signalCount _ _ _
      | split

lemma routeDispatch_take (serverId : String) (signal : Signal) (rinfo : RemoteInfo)
    (now : Nat) (st1 : RouteState) (n : Nat) (hn : n ≤ st1.trace.length) :
    (SignalHandlers.routeDispatch serverId signal rinfo now st1).state.trace.take n =
      st1.trace.take n := by
  unfold SignalHandlers.routeDispatch
  repeat
    first
      | exact handleHeartbeat_take _ _ _ _ hn
      | exact handleDockRequest_take _ _ _ _ _ _ hn
      | exact handleShutdown_take _ _ _ _ hn
      | exact handleFileEvent_take _ _ _ _ _ hn
      | exact handleSearchEvent_take _ _ _ _ _ hn
      | exact handleBuildEvent_take _ _ _ _ _ hn
      | exact handleVerificationEvent_take _ _ _ _ _ hn
      | exact handleValidationEvent_take _ _ _ _ hn
      | exact handleCoordinationEvent_take _ _ _ _ _ hn
      | exact handleAstrosentryEvent_take _ _ _ _ _ hn
      | exact handleError_take _ _ _ _ hn
      | exact handleUnknownSignal_take _ _ _ _ hn
      | split

lemma routeDispatch_attnCount (serverId : String) (signal : Signal) (rinfo : RemoteInfo)
    (now : Nat) (st1 : RouteState) :
    (SignalHandlers.routeDispatch serverId signal rinfo now st1).state.trace.countP
        isAttnInsert =
      st1.trace.countP isAttnInsert +
        (if secondAttention signal.signalType then 1 else 0) := by
  unfold SignalHandlers.routeDispatch
  split
  · rename_i h
    simp +decide [handleHeartbeat_attnCount, h, secondAttention]
  split
  · rename_i h
    simp +decide [handleDockRequest_attnCount, h, secondAttention]
  split
  · rename_i h
    obtain h | h := h <;> simp +decide [handleShutdown_attnCount, h, secondAttention]
  split
  · rename_i h
    obtain h | h | h | h := h <;>
      simp +decide [handleFileEvent_attnCount, h, secondAttention]
  split
  · rename_i h
    obtain h | h | h := h <;>
      simp +decide [handleSearchEvent_attnCount, h, secondAttention]
  split
  · rename_i h
    obtain h | h | h := h <;>
      simp +decide [handleBuildEvent_attnCount, h, secondAttention]
  split
  · rename_i h
    obtain h | h | h := h <;>
      simp +decide [handleVerificationEvent_attnCount, h, secondAttention]
  split
  · rename_i h
    obtain h | h := h <;>
      simp +decide [handleValidationEvent_attnCount, h, secondAttention]
  split
  · rename_i h
    obtain h | h | h | h := h <;>
      simp +decide [handleCoordinationEvent_attnCount, h, secondAttention]
  split
  · rename_i h
    simp +decide [handleAstrosentryEvent_attnCount, h, secondAttention]
  split
  · rename_i h
    simp +decide [handleError_attnCount, h, secondAttention]
  simp_all +decide [handleUnknownSignal_attnCount, secondAttention]

/-- Claim C2: the claim that every routing call makes exactly one
`insertAttentionEvent` call is false on the code: a file-discovered signal
leads to two insert calls (the universal one plus the file handler's). -/
theorem route_file_signal_not_single_attention_insert :
    ¬ ((SignalHandlers.route "consciousness-mcp" fileSig rinfo0 5 store0).state.trace.countP
        isAttnInsert = 1) := by decide

/-- C2 (amended): every routing call makes at least one
`insertAttentionEvent` call; exactly one for most signal types, but exactly
two (the universal one plus a family-specific one) for file events,
search-started, build-started, coordination events and astrosentry
events. -/
theorem route_attention_insert_count (serverId : String) (signal : Signal)
    (rinfo : RemoteInfo) (now : Nat) (store : Store) :
    (SignalHandlers.route serverId signal rinfo now store).state.trace.countP isAttnInsert =
      if secondAttention signal.signalType then 2 else 1 := by
  unfold SignalHandlers.route
  rw [routeDispatch_attnCount, logAttentionEvent_attnCount]
  by_cases hs : secondAttention signal.signalType = true <;> simp [hs]

/-- Claim C7: for every signal, `route` performs exactly one attention-event
insert of `event_type = signal` (the Logger call), its target is the signal
type's name, and that insert is the first side effect after the console
log, before every family-specific effect. -/
theorem route_logs_universal_attention_first (serverId : String) (signal : Signal)
    (rinfo : RemoteInfo) (now : Nat) (store : Store) :
    (SignalHandlers.route serverId signal rinfo now store).state.trace.take 2 =
        [Effect.consoleError "[Handlers] Received",
          Effect.insertAttentionEvent (SignalHandlers.attnOf signal rinfo now)] ∧
      (SignalHandlers.route serverId signal rinfo now store).state.trace.countP
        isSignalAttn = 1 ∧
      (SignalHandlers.attnOf signal rinfo now).event_type = "signal" ∧
      (SignalHandlers.attnOf signal rinfo now).target =
        JsVal.str (getSignalName signal.signalType) := by
  refine ⟨?_, ?_, rfl, rfl⟩
  · unfold SignalHandlers.route
    have hshape := logAttentionEvent_shape signal rinfo now
      { store := store, trace := [Effect.consoleError "[Handlers] Received"] }
    have h2 : 2 ≤ (SignalHandlers.logAttentionEvent signal rinfo now
        { store := store, trace := [Effect.consoleError "[Handlers] Received"] }
        ).trace.length := by
      rcases hshape with h | h <;> simp [h]
    rw [routeDispatch_take _ _ _ _ _ 2 h2]
    rcases hshape with h | h <;> rw [h] <;> rfl
  · unfold SignalHandlers.route
    rw [routeDispatch_signalCount, logAttentionEvent_signalCount]
    simp

/-- Claim C8: for every dock-request signal from any sender, `route` replies to
the originating address and port with exactly one DOCK_APPROVED signal
carrying the observer's identity, `approved = true`, the welcome message,
version 0x0100, a now-seconds timestamp, and the fixed capability list; a
dock request is never refused. -/
theorem route_dock_request_always_approves (serverId : String) (ver ts : Nat)
    (p : List (String × JsVal)) (rinfo : RemoteInfo) (now : Nat) (store : Store) :
    sendsOf (SignalHandlers.route serverId
        { signalType := SignalTypes.DOCK_REQUEST, version := ver, timestamp := ts, payload := p }
        rinfo now store).state.trace =
        [(rinfo.address, rinfo.port, SignalHandlers.dockResponse serverId now)] ∧
      (SignalHandlers.dockResponse serverId now).signalType = SignalTypes.DOCK_APPROVED ∧
      (SignalHandlers.dockResponse serverId now).version = 0x0100 ∧
      (SignalHandlers.dockResponse serverId now).timestamp = now / 1000 ∧
      getField (SignalHandlers.dockResponse serverId now).payload "sender" =
        JsVal.str serverId ∧
      getField (SignalHandlers.dockResponse serverId now).payload "approved" =
        JsVal.bool true ∧
      getField (SignalHandlers.dockResponse serverId now).payload "message" =
        JsVal.str "Welcome to the consciousness mesh" ∧
      getField (SignalHandlers.dockResponse serverId now).payload "capabilities" =
        JsVal.arr [JsVal.str "awareness", JsVal.str "pattern-detection",
          JsVal.str "reflection"] := by
  refine ⟨?_, rfl, rfl, rfl, rfl, rfl, rfl, rfl⟩
  unfold SignalHandlers.route SignalHandlers.routeDispatch SignalHandlers.handleDockRequest
  rcases logAttentionEvent_shape
      { signalType := SignalTypes.DOCK_REQUEST, version := ver, timestamp := ts, payload := p }
      rinfo now { store := store, trace := [Effect.consoleError "[Handlers] Received"] }
    with h | h <;>
    simp +decide [h, sendsOf]

/-- Claim C9: a signal whose type matches no recognised case (e.g. 0x9999) still
produces exactly one attention event (the universal one), emits exactly one
`unknown_signal` notification carrying the raw numeric type, derives no
Operation, and does not throw. -/
theorem route_unknown_signal_logged_not_thrown (serverId : String) (t ver ts : Nat)
    (p : List (String × JsVal)) (rinfo : RemoteInfo) (now : Nat) (store : Store)
    (ht : handledSignalType t = false) :
    (SignalHandlers.route serverId
        { signalType := t, version := ver, timestamp := ts, payload := p }
        rinfo now store).err = none ∧
      (SignalHandlers.route serverId
          { signalType := t, version := ver, timestamp := ts, payload := p }
          rinfo now store).state.trace.countP isAttnInsert = 1 ∧
      (SignalHandlers.route serverId
          { signalType := t, version := ver, timestamp := ts, payload := p }
          rinfo now store).state.trace.countP (isEmitNamed "unknown_signal") = 1 ∧
      (SignalHandlers.route serverId
          { signalType := t, version := ver, timestamp := ts, payload := p }
          rinfo now store).state.trace.countP (isUnknownEmitWith t) = 1 ∧
      opsAttempted (SignalHandlers.route serverId
          { signalType := t, version := ver, timestamp := ts, payload := p }
          rinfo now store).state.trace = [] := by
  simp only [handledSignalType, decide_eq_false_iff_not] at ht
  push_neg at ht
  obtain ⟨h1, h2, h3, h4, h5, h6, h7, h8, h9, h10, h11, h12, h13, h14, h15, h16, h17, h18,
    h19, h20, h21, h22, h23, h24, h25⟩ := ht
  unfold SignalHandlers.route SignalHandlers.routeDispatch SignalHandlers.handleUnknownSignal
  rcases logAttentionEvent_shape
      { signalType := t, version := ver, timestamp := ts, payload := p }
      rinfo now { store := store, trace := [Effect.consoleError "[Handlers] Received"] }
    with h | h <;>
    simp [h, h1, h2, h3, h4, h5, h6, h7, h8, h9, h10, h11, h12, h13, h14, h15, h16, h17,
      h18, h19, h20, h21, h22, h23, h24, h25, opsAttempted, isEmitNamed, isUnknownEmitWith,
      getFieldV, getField, JsVal.beq]

/-- Witness for claim C9 at the numeric type 0x9999 of the spec's example. -/
theorem route_unknown_signal_logged_not_thrown_witness :
    handledSignalType 0x9999 = false ∧
      (SignalHandlers.route "consciousness-mcp"
          { signalType := 0x9999, version := 0x0100, timestamp := 7,
            payload := [("sender", JsVal.str "mystery")] }
          rinfo0 9 store0).err = none ∧
      (SignalHandlers.route "consciousness-mcp"
          { signalType := 0x9999, version := 0x0100, timestamp := 7,
            payload := [("sender", JsVal.str "mystery")] }
          rinfo0 9 store0).state.trace.countP (isUnknownEmitWith 0x9999) = 1 :=
  ⟨by decide,
    (route_unknown_signal_logged_not_thrown "consciousness-mcp" 0x9999 0x0100 7
      [("sender", JsVal.str "mystery")] rinfo0 9 store0 (by decide)).1,
    (route_unknown_signal_logged_not_thrown "consciousness-mcp" 0x9999 0x0100 7
      [("sender", JsVal.str "mystery")] rinfo0 9 store0 (by decide)).2.2.2.1⟩

lemma logAttentionEvent_ops (signal : Signal) (rinfo : RemoteInfo) (now : Nat)
    (st : RouteState) :
    opsAttempted (SignalHandlers.logAttentionEvent signal rinfo now st).trace =
      opsAttempted st.trace := by
  rcases logAttentionEvent_shape signal rinfo now st with h | h <;> simp [h, opsAttempted]

lemma handleSearchEvent_ops (signal : Signal) (rinfo : RemoteInfo) (now : Nat)
    (st : RouteState) (h : signal.signalType = SignalTypes.SEARCH_COMPLETED) :
    opsAttempted (SignalHandlers.handleSearchEvent signal rinfo now st).state.trace =
      opsAttempted st.trace ++ [SignalHandlers.searchOp signal now] := by
  unfold SignalHandlers.handleSearchEvent
  simp [h, opsAttempted, tryInsertOperation_trace]

lemma route_search_completed_ops (serverId : String) (ver ts : Nat)
    (p : List (String × JsVal)) (rinfo : RemoteInfo) (now : Nat) (store : Store) :
    opsAttempted (SignalHandlers.route serverId
        { signalType := SignalTypes.SEARCH_COMPLETED, version := ver, timestamp := ts,
          payload := p } rinfo now store).state.trace =
      [SignalHandlers.searchOp
        { signalType := SignalTypes.SEARCH_COMPLETED, version := ver, timestamp := ts,
          payload := p } now] := by
  unfold SignalHandlers.route SignalHandlers.routeDispatch
  simp +decide only [if_true, if_false]
  rw [handleSearchEvent_ops _ _ _ _ rfl, logAttentionEvent_ops]
  simp [opsAttempted]

/-- Claim C4: a search-completed signal derives exactly one Operation of type
`search`, with `outcome = success` iff `results_count > 0` (else partial),
`quality_score = min(1, results_count / 10)` and `0` when `results_count`
is absent, and `operation_id` the payload's `search_id` when present and a
time-based fallback otherwise. -/
theorem route_search_completed_operation (serverId : String) (ver ts : Nat)
    (p : List (String × JsVal)) (rinfo : RemoteInfo) (now : Nat) (store : Store) :
    ∃ op, opsAttempted (SignalHandlers.route serverId
          { signalType := SignalTypes.SEARCH_COMPLETED, version := ver, timestamp := ts,
            payload := p } rinfo now store).state.trace = [op] ∧
      op.operation_type = JsVal.str "search" ∧
      (∀ rc : ℚ, getField (removeSender p) "results_count" = JsVal.num rc →
        op.outcome = (if 0 < rc then "success" else "partial") ∧
          op.quality_score = JsVal.num (min 1 (rc / 10))) ∧
      (getField (removeSender p) "results_count" = JsVal.undef →
        op.outcome = "partial" ∧ op.quality_score = JsVal.num 0) ∧
      (∀ sid : String, getField (removeSender p) "search_id" = JsVal.str sid → sid ≠ "" →
        op.operation_id = JsVal.str sid) ∧
      (getField (removeSender p) "search_id" = JsVal.undef →
        op.operation_id = JsVal.str ("search-" ++ toString now)) := by
  refine ⟨_, route_search_completed_ops serverId ver ts p rinfo now store, rfl, ?_, ?_, ?_, ?_⟩
  · intro rc hrc
    constructor
    · by_cases h0 : 0 < rc <;>
        simp [SignalHandlers.searchOp, hrc, JsVal.gtZero, h0]
    · by_cases h0 : rc = 0 <;>
        simp [SignalHandlers.searchOp, hrc, jsOr, JsVal.truthy, jsDiv10, JsVal.toNumber,
          jsMinOne, h0]
  · intro hrc
    constructor
    · simp [SignalHandlers.searchOp, hrc, JsVal.gtZero]
    · simp [SignalHandlers.searchOp, hrc, jsOr, JsVal.truthy, jsDiv10, JsVal.toNumber,
        jsMinOne]
  · intro sid hsid hne
    simp [SignalHandlers.searchOp, hsid, jsOr, JsVal.truthy, hne]
  · intro hsid
    simp [SignalHandlers.searchOp, hsid, jsOr, JsVal.truthy]

/-- Witness for claim C4: `results_count = 25` and `search_id = "s1"` give outcome
success, quality score 1 and operation id `"s1"`. -/
theorem route_search_completed_operation_witness :
    ∃ op, opsAttempted (SignalHandlers.route "consciousness-mcp"
          { signalType := SignalTypes.SEARCH_COMPLETED, version := 0x0100, timestamp := 7,
            payload := [("sender", JsVal.str "quartermaster"),
              ("search_id", JsVal.str "s1"), ("query", JsVal.str "foo"),
              ("results_count", JsVal.num 25)] } rinfo0 9 store0).state.trace = [op] ∧
      op.outcome = "success" ∧ op.quality_score = JsVal.num 1 ∧
      op.operation_id = JsVal.str "s1" := by
  obtain ⟨op, hops, _, hrc, _, hsid, _⟩ :=
    route_search_completed_operation "consciousness-mcp" 0x0100 7
      [("sender", JsVal.str "quartermaster"), ("search_id", JsVal.str "s1"),
        ("query", JsVal.str "foo"), ("results_count", JsVal.num 25)] rinfo0 9 store0
  obtain ⟨ho, hq⟩ := hrc 25 rfl
  refine ⟨op, hops, ?_, ?_, hsid "s1" rfl (by decide)⟩
  · rw [ho]; decide
  · rw [hq]
    congr 1
    rw [min_eq_left (by norm_num)]

lemma logAttentionEvent_countP_of (q : Effect → Bool)
    (hq1 : ∀ e, q (Effect.insertAttentionEvent e) = false)
    (hq2 : ∀ m, q (Effect.consoleError m) = false)
    (signal : Signal) (rinfo : RemoteInfo) (now : Nat) (st : RouteState) :
    (SignalHandlers.logAttentionEvent signal rinfo now st).trace.countP q =
      st.trace.countP q := by
  rcases logAttentionEvent_shape signal rinfo now st with h | h <;>
    simp [h, List.countP_append, hq1, hq2]

lemma handleBuildEvent_ops (signal : Signal) (rinfo : RemoteInfo) (now : Nat)
    (st : RouteState)
    (h : signal.signalType = SignalTypes.BUILD_COMPLETED ∨
      signal.signalType = SignalTypes.BUILD_FAILED) :
    opsAttempted (SignalHandlers.handleBuildEvent signal rinfo now st).state.trace =
      opsAttempted st.trace ++ [SignalHandlers.buildOp signal now] := by
  unfold SignalHandlers.handleBuildEvent
  rcases h with h | h <;>
    simp +decide [h, opsAttempted, tryInsertOperation_trace, SignalHandlers.buildOp]

lemma handleBuildEvent_lessonCount (signal : Signal) (rinfo : RemoteInfo) (now : Nat)
    (st : RouteState) :
    (SignalHandlers.handleBuildEvent signal rinfo now st).state.trace.countP
        (isEmitNamed "lesson_learned") =
      st.trace.countP (isEmitNamed "lesson_learned") +
        (if signal.signalType = SignalTypes.BUILD_FAILED then 1 else 0) := by
  unfold SignalHandlers.handleBuildEvent RouteState.insertAttentionEventR
    Store.insertAttentionEvent
  by_cases ht : signal.signalType = SignalTypes.BUILD_STARTED <;>
    by_cases hc : signal.signalType = SignalTypes.BUILD_COMPLETED <;>
    by_cases hb : signal.signalType = SignalTypes.BUILD_FAILED <;>
    by_cases hf : st.store.attentionFails = true <;>
    simp +decide [ht, hc, hb, hf, List.countP_append, tryInsertOperation_trace,
      SignalHandlers.buildOp, isEmitNamed]

lemma handleBuildEvent_lessonTagCount (signal : Signal) (rinfo : RemoteInfo) (now : Nat)
    (st : RouteState) :
    (SignalHandlers.handleBuildEvent signal rinfo now st).state.trace.countP
        isLessonBuildFailure =
      st.trace.countP isLessonBuildFailure +
        (if signal.signalType = SignalTypes.BUILD_FAILED then 1 else 0) := by
  unfold SignalHandlers.handleBuildEvent RouteState.insertAttentionEventR
    Store.insertAttentionEvent
  by_cases ht : signal.signalType = SignalTypes.BUILD_STARTED <;>
    by_cases hc : signal.signalType = SignalTypes.BUILD_COMPLETED <;>
    by_cases hb : signal.signalType = SignalTypes.BUILD_FAILED <;>
    by_cases hf : st.store.attentionFails = true <;>
    simp +decide [ht, hc, hb, hf, List.countP_append, tryInsertOperation_trace,
      SignalHandlers.buildOp, isLessonBuildFailure, getFieldV, getField, JsVal.beq]

lemma route_build_completed_effects (serverId : String) (ver ts : Nat)
    (p : List (String × JsVal)) (rinfo : RemoteInfo) (now : Nat) (store : Store) :
    opsAttempted (SignalHandlers.route serverId
        { signalType := SignalTypes.BUILD_COMPLETED, version := ver, timestamp := ts,
          payload := p } rinfo now store).state.trace =
      [SignalHandlers.buildOp
        { signalType := SignalTypes.BUILD_COMPLETED, version := ver, timestamp := ts,
          payload := p } now] ∧
    (SignalHandlers.route serverId
        { signalType := SignalTypes.BUILD_COMPLETED, version := ver, timestamp := ts,
          payload := p } rinfo now store).state.trace.countP
      (isEmitNamed "lesson_learned") = 0 := by
  unfold SignalHandlers.route SignalHandlers.routeDispatch
  simp +decide only [if_true, if_false]
  constructor
  · rw [handleBuildEvent_ops _ _ _ _ (Or.inl rfl), logAttentionEvent_ops]
    simp [opsAttempted]
  · rw [handleBuildEvent_lessonCount,
      logAttentionEvent_countP_of (isEmitNamed "lesson_learned") (fun _ => rfl) (fun _ => rfl)]
    simp +decide [isEmitNamed]

lemma route_build_failed_effects (serverId : String) (ver ts : Nat)
    (p : List (String × JsVal)) (rinfo : RemoteInfo) (now : Nat) (store : Store) :
    opsAttempted (SignalHandlers.route serverId
        { signalType := SignalTypes.BUILD_FAILED, version := ver, timestamp := ts,
          payload := p } rinfo now store).state.trace =
      [SignalHandlers.buildOp
        { signalType := SignalTypes.BUILD_FAILED, version := ver, timestamp := ts,
          payload := p } now] ∧
    (SignalHandlers.route serverId
        { signalType := SignalTypes.BUILD_FAILED, version := ver, timestamp := ts,
          payload := p } rinfo now store).state.trace.countP
      (isEmitNamed "lesson_learned") = 1 ∧
    (SignalHandlers.route serverId
        { signalType := SignalTypes.BUILD_FAILED, version := ver, timestamp := ts,
          payload := p } rinfo now store).state.trace.countP isLessonBuildFailure = 1 := by
  unfold SignalHandlers.route SignalHandlers.routeDispatch
  simp +decide only [if_true, if_false]
  refine ⟨?_, ?_, ?_⟩
  · rw [handleBuildEvent_ops _ _ _ _ (Or.inr rfl), logAttentionEvent_ops]
    simp [opsAttempted]
  · rw [handleBuildEvent_lessonCount,
      logAttentionEvent_countP_of (isEmitNamed "lesson_learned") (fun _ => rfl) (fun _ => rfl)]
    simp +decide [isEmitNamed]
  · rw [handleBuildEvent_lessonTagCount,
      logAttentionEvent_countP_of isLessonBuildFailure (fun _ => rfl) (fun _ => rfl)]
    simp +decide [isLessonBuildFailure]

/-- Claim C5: a build-completed signal derives exactly one Operation of type
`build` with outcome success and quality score 0.9 and emits no
`lesson_learned` notification; a build-failed signal derives exactly one
Operation of type `build` with outcome failure and quality score 0.2 and
emits exactly one `lesson_learned` notification tagged `build_failure`. -/
theorem route_build_operations_and_lessons (serverId : String) (ver ts : Nat)
    (p : List (String × JsVal)) (rinfo : RemoteInfo) (now : Nat) (store : Store) :
    (∃ op, opsAttempted (SignalHandlers.route serverId
          { signalType := SignalTypes.BUILD_COMPLETED, version := ver, timestamp := ts,
            payload := p } rinfo now store).state.trace = [op] ∧
        op.operation_type = JsVal.str "build" ∧ op.outcome = "success" ∧
        op.quality_score = JsVal.num (9 / 10)) ∧
      (SignalHandlers.route serverId
          { signalType := SignalTypes.BUILD_COMPLETED, version := ver, timestamp := ts,
            payload := p } rinfo now store).state.trace.countP
        (isEmitNamed "lesson_learned") = 0 ∧
      (∃ op, opsAttempted (SignalHandlers.route serverId
          { signalType := SignalTypes.BUILD_FAILED, version := ver, timestamp := ts,
            payload := p } rinfo now store).state.trace = [op] ∧
        op.operation_type = JsVal.str "build" ∧ op.outcome = "failure" ∧
        op.quality_score = JsVal.num (2 / 10)) ∧
      (SignalHandlers.route serverId
          { signalType := SignalTypes.BUILD_FAILED, version := ver, timestamp := ts,
            payload := p } rinfo now store).state.trace.countP
        (isEmitNamed "lesson_learned") = 1 ∧
      (SignalHandlers.route serverId
          { signalType := SignalTypes.BUILD_FAILED, version := ver, timestamp := ts,
            payload := p } rinfo now store).state.trace.countP isLessonBuildFailure = 1 := by
  obtain ⟨hc1, hc2⟩ := route_build_completed_effects serverId ver ts p rinfo now store
  obtain ⟨hf1, hf2, hf3⟩ := route_build_failed_effects serverId ver ts p rinfo now store
  exact ⟨⟨_, hc1, rfl, rfl, rfl⟩, hc2, ⟨_, hf1, rfl, rfl, rfl⟩, hf2, hf3⟩

lemma handleVerificationEvent_ops (signal : Signal) (rinfo : RemoteInfo) (now : Nat)
    (st : RouteState) (h : signal.signalType = SignalTypes.VERIFICATION_RESULT) :
    opsAttempted (SignalHandlers.handleVerificationEvent signal rinfo now st).state.trace =
      opsAttempted st.trace ++ [SignalHandlers.verifyOp signal now] := by
  unfold SignalHandlers.handleVerificationEvent
  simp [h, opsAttempted, tryInsertOperation_trace]

lemma route_verification_result_ops (serverId : String) (ver ts : Nat)
    (p : List (String × JsVal)) (rinfo : RemoteInfo) (now : Nat) (store : Store) :
    opsAttempted (SignalHandlers.route serverId
        { signalType := SignalTypes.VERIFICATION_RESULT, version := ver, timestamp := ts,
          payload := p } rinfo now store).state.trace =
      [SignalHandlers.verifyOp
        { signalType := SignalTypes.VERIFICATION_RESULT, version := ver, timestamp := ts,
          payload := p } now] := by
  unfold SignalHandlers.route SignalHandlers.routeDispatch
  simp +decide only [if_true, if_false]
  rw [handleVerificationEvent_ops _ _ _ _ rfl, logAttentionEvent_ops]
  simp [opsAttempted]

/-- Claim C6: a verification-result signal derives exactly one Operation of type
`verify` whose outcome is success for verdict SUPPORTED, failure for
CONTRADICTED, partial for any other or missing verdict, and whose quality
score is the payload's confidence or the default 0.5. -/
theorem route_verification_result_operation (serverId : String) (ver ts : Nat)
    (p : List (String × JsVal)) (rinfo : RemoteInfo) (now : Nat) (store : Store) :
    ∃ op, opsAttempted (SignalHandlers.route serverId
          { signalType := SignalTypes.VERIFICATION_RESULT, version := ver, timestamp := ts,
            payload := p } rinfo now store).state.trace = [op] ∧
      op.operation_type = JsVal.str "verify" ∧
      (getField (removeSender p) "verdict" = JsVal.str "SUPPORTED" →
        op.outcome = "success") ∧
      (getField (removeSender p) "verdict" = JsVal.str "CONTRADICTED" →
        op.outcome = "failure") ∧
      (∀ s : String, getField (removeSender p) "verdict" = JsVal.str s →
        s ≠ "SUPPORTED" → s ≠ "CONTRADICTED" → op.outcome = "partial") ∧
      (getField (removeSender p) "verdict" = JsVal.undef → op.outcome = "partial") ∧
      (∀ c : ℚ, getField (removeSender p) "confidence" = JsVal.num c → c ≠ 0 →
        op.quality_score = JsVal.num c) ∧
      (getField (removeSender p) "confidence" = JsVal.undef →
        op.quality_score = JsVal.num (1 / 2)) := by
  refine ⟨_, route_verification_result_ops serverId ver ts p rinfo now store,
    rfl, ?_, ?_, ?_, ?_, ?_, ?_⟩
  · intro h
    simp [SignalHandlers.verifyOp, h, JsVal.beq]
  · intro h
    simp [SignalHandlers.verifyOp, h, JsVal.beq]
  · intro s h hne1 hne2
    simp [SignalHandlers.verifyOp, h, JsVal.beq, hne1, hne2]
  · intro h
    simp [SignalHandlers.verifyOp, h, JsVal.beq]
  · intro c h hc
    simp [SignalHandlers.verifyOp, h, jsOr, JsVal.truthy, hc]
  · intro h
    simp [SignalHandlers.verifyOp, h, jsOr, JsVal.truthy]

/-- Witness for claim C6: verdict CONTRADICTED with confidence 0.8 gives outcome
failure and quality score 0.8. -/
theorem route_verification_result_operation_witness :
    ∃ op, opsAttempted (SignalHandlers.route "consciousness-mcp"
          { signalType := SignalTypes.VERIFICATION_RESULT, version := 0x0100, timestamp := 7,
            payload := [("sender", JsVal.str "verifier"),
              ("verdict", JsVal.str "CONTRADICTED"),
              ("confidence", JsVal.num (8 / 10))] } rinfo0 9 store0).state.trace = [op] ∧
      op.outcome = "failure" ∧ op.quality_score = JsVal.num (8 / 10) := by
  obtain ⟨op, hops, _, _, hcon, _, _, hq, _⟩ :=
    route_verification_result_operation "consciousness-mcp" 0x0100 7
      [("sender", JsVal.str "verifier"), ("verdict", JsVal.str "CONTRADICTED"),
        ("confidence", JsVal.num (8 / 10))] rinfo0 9 store0
  exact ⟨op, hops, hcon rfl, hq (8 / 10) rfl (by norm_num)⟩

/-- Claim C10: for a verification-result signal, a present confidence of zero is
treated like a missing one: the derived Operation's quality score is the
default 0.5, not 0. -/
theorem route_verification_zero_confidence_defaults (serverId : String) (ver ts : Nat)
    (p : List (String × JsVal)) (rinfo : RemoteInfo) (now : Nat) (store : Store) :
    ∃ op, opsAttempted (SignalHandlers.route serverId
          { signalType := SignalTypes.VERIFICATION_RESULT, version := ver, timestamp := ts,
            payload := p } rinfo now store).state.trace = [op] ∧
      (getField (removeSender p) "confidence" = JsVal.num 0 →
        op.quality_score = JsVal.num (1 / 2)) ∧
      (getField (removeSender p) "confidence" = JsVal.undef →
        op.quality_score = JsVal.num (1 / 2)) := by
  refine ⟨_, route_verification_result_ops serverId ver ts p rinfo now store, ?_, ?_⟩
  · intro h
    simp [SignalHandlers.verifyOp, h, jsOr, JsVal.truthy]
  · intro h
    simp [SignalHandlers.verifyOp, h, jsOr, JsVal.truthy]

/-- Witness for claim C10: an explicit `confidence = 0` yields quality score 0.5. -/
theorem route_verification_zero_confidence_defaults_witness :
    ∃ op, opsAttempted (SignalHandlers.route "consciousness-mcp"
          { signalType := SignalTypes.VERIFICATION_RESULT, version := 0x0100, timestamp := 3,
            payload := [("sender", JsVal.str "verifier"),
              ("verdict", JsVal.str "SUPPORTED"),
              ("confidence", JsVal.num 0)] } rinfo0 4 store0).state.trace = [op] ∧
      op.quality_score = JsVal.num (1 / 2) := by
  obtain ⟨op, hops, hz, _⟩ :=
    route_verification_zero_confidence_defaults "consciousness-mcp" 0x0100 3
      [("sender", JsVal.str "verifier"), ("verdict", JsVal.str "SUPPORTED"),
        ("confidence", JsVal.num 0)] rinfo0 4 store0
  exact ⟨op, hops, hz rfl⟩

lemma logAttentionEvent_store_ops (signal : Signal) (rinfo : RemoteInfo) (now : Nat)
    (st : RouteState) :
    (SignalHandlers.logAttentionEvent signal rinfo now st).store.operations =
      st.store.operations := by
  unfold SignalHandlers.logAttentionEvent Store.insertAttentionEvent
  by_cases hf : st.store.attentionFails = true <;> simp [hf]

lemma route_build_completed_eq (serverId : String) (ver ts : Nat)
    (p : List (String × JsVal)) (rinfo : RemoteInfo) (now : Nat) (store : Store) :
    SignalHandlers.route serverId
        { signalType := SignalTypes.BUILD_COMPLETED, version := ver, timestamp := ts,
          payload := p } rinfo now store =
      SignalHandlers.handleBuildEvent
        { signalType := SignalTypes.BUILD_COMPLETED, version := ver, timestamp := ts,
          payload := p } rinfo now
        (SignalHandlers.logAttentionEvent
          { signalType := SignalTypes.BUILD_COMPLETED, version := ver, timestamp := ts,
            payload := p } rinfo now
          { store := store, trace := [Effect.consoleError "[Handlers] Received"] }) := by
  unfold SignalHandlers.route SignalHandlers.routeDispatch
  simp +decide only [if_true, if_false]

lemma handleBuildEvent_completed_err (signal : Signal) (rinfo : RemoteInfo) (now : Nat)
    (st : RouteState) (h : signal.signalType = SignalTypes.BUILD_COMPLETED) :
    (SignalHandlers.handleBuildEvent signal rinfo now st).err = none := by
  unfold SignalHandlers.handleBuildEvent
  simp +decide [h, RouteResult.done]

lemma tryInsertOperation_store_ops (st : RouteState) (op : Operation) :
    (st.tryInsertOperation op).store.operations =
      if st.store.operations.any (fun o => o.operation_id.beq op.operation_id)
        then st.store.operations
        else st.store.operations ++ [op] := by
  unfold RouteState.tryInsertOperation Store.insertOperation
  by_cases ha : st.store.operations.any
      (fun o => o.operation_id.beq op.operation_id) = true
  · rw [if_pos ha, if_pos ha]
  · rw [if_neg ha, if_neg ha]

lemma buildOp_outcome_completed (signal : Signal) (now : Nat)
    (h : signal.signalType = SignalTypes.BUILD_COMPLETED) :
    (SignalHandlers.buildOp signal now).outcome = "success" := by
  simp [SignalHandlers.buildOp, h]

lemma handleBuildEvent_completed_store_ops (signal : Signal) (rinfo : RemoteInfo) (now : Nat)
    (st : RouteState) (h : signal.signalType = SignalTypes.BUILD_COMPLETED) :
    (SignalHandlers.handleBuildEvent signal rinfo now st).state.store.operations =
      if st.store.operations.any
          (fun o => o.operation_id.beq (SignalHandlers.buildOp signal now).operation_id)
        then st.store.operations
        else st.store.operations ++ [SignalHandlers.buildOp signal now] := by
  unfold SignalHandlers.handleBuildEvent
  simp +decide [h, buildOp_outcome_completed signal now h, tryInsertOperation_store_ops,
    RouteResult.done]

lemma buildOp_operation_id_of_build_id (signal : Signal) (now : Nat) (bid : String)
    (hbid : getField (removeSender signal.payload) "build_id" = JsVal.str bid)
    (hne : bid ≠ "") :
    (SignalHandlers.buildOp signal now).operation_id = JsVal.str bid := by
  simp [SignalHandlers.buildOp, SignalHandlers.buildIdOf, hbid, jsOr, JsVal.truthy, hne]

/-- Claim C3: routing the same build-completed signal (carrying a `build_id`)
twice never raises, and against the uniqueness-checked store the second
insert of the duplicate `operation_id` is absorbed as a no-op, leaving
exactly one Operation row. -/
theorem route_build_completed_idempotent (serverId : String) (ver ts : Nat)
    (p : List (String × JsVal)) (rinfo : RemoteInfo) (now1 now2 : Nat) (store : Store)
    (hops : store.operations = []) (bid : String)
    (hbid : getField (removeSender p) "build_id" = JsVal.str bid) (hne : bid ≠ "") :
    (SignalHandlers.route serverId
        { signalType := SignalTypes.BUILD_COMPLETED, version := ver, timestamp := ts,
          payload := p } rinfo now1 store).err = none ∧
      (SignalHandlers.route serverId
          { signalType := SignalTypes.BUILD_COMPLETED, version := ver, timestamp := ts,
            payload := p } rinfo now2
          (SignalHandlers.route serverId
              { signalType := SignalTypes.BUILD_COMPLETED, version := ver, timestamp := ts,
                payload := p } rinfo now1 store).state.store).err = none ∧
      (SignalHandlers.route serverId
          { signalType := SignalTypes.BUILD_COMPLETED, version := ver, timestamp := ts,
            payload := p } rinfo now2
          (SignalHandlers.route serverId
              { signalType := SignalTypes.BUILD_COMPLETED, version := ver, timestamp := ts,
                payload := p } rinfo now1 store).state.store
          ).state.store.operations.length = 1 := by
  have herr : ∀ (n : Nat) (s : Store),
      (SignalHandlers.route serverId
        { signalType := SignalTypes.BUILD_COMPLETED, version := ver, timestamp := ts,
          payload := p } rinfo n s).err = none := by
    intro n s
    rw [route_build_completed_eq]
    exact handleBuildEvent_completed_err _ _ _ _ rfl
  have hid : ∀ n : Nat,
      (SignalHandlers.buildOp
        { signalType := SignalTypes.BUILD_COMPLETED, version := ver, timestamp := ts,
          payload := p } n).operation_id = JsVal.str bid := fun n =>
    buildOp_operation_id_of_build_id _ n bid hbid hne
  have hops1 : ∀ (n : Nat) (s : Store),
      (SignalHandlers.route serverId
        { signalType := SignalTypes.BUILD_COMPLETED, version := ver, timestamp := ts,
          payload := p } rinfo n s).state.store.operations =
        if s.operations.any (fun o => o.operation_id.beq (JsVal.str bid))
          then s.operations
          else s.operations ++ [SignalHandlers.buildOp
            { signalType := SignalTypes.BUILD_COMPLETED, version := ver, timestamp := ts,
              payload := p } n] := by
    intro n s
    rw [route_build_completed_eq, handleBuildEvent_completed_store_ops _ _ _ _ rfl,
      logAttentionEvent_store_ops, hid n]
  have hfirst : (SignalHandlers.route serverId
      { signalType := SignalTypes.BUILD_COMPLETED, version := ver, timestamp := ts,
        payload := p } rinfo now1 store).state.store.operations =
      [SignalHandlers.buildOp
        { signalType := SignalTypes.BUILD_COMPLETED, version := ver, timestamp := ts,
          payload := p } now1] := by
    rw [hops1 now1 store, hops]
    simp
  refine ⟨herr now1 store, herr now2 _, ?_⟩
  rw [hops1 now2 _, hfirst]
  simp [hid now1, JsVal.beq]

/-- Witness for claim C3: a concrete build-completed signal with `build_id = "b1"`
routed twice against the empty store leaves one Operation row. -/
theorem route_build_completed_idempotent_witness :
    store0.operations = [] ∧
      (SignalHandlers.route "consciousness-mcp"
          { signalType := SignalTypes.BUILD_COMPLETED, version := 256, timestamp := 100,
            payload := [("sender", JsVal.str "neurogenesis"), ("build_id", JsVal.str "b1")] }
          rinfo0 9
          (SignalHandlers.route "consciousness-mcp"
              { signalType := SignalTypes.BUILD_COMPLETED, version := 256, timestamp := 100,
                payload := [("sender", JsVal.str "neurogenesis"),
                  ("build_id", JsVal.str "b1")] }
              rinfo0 5 store0).state.store).state.store.operations.length = 1 :=
  ⟨rfl, (route_build_completed_idempotent "consciousness-mcp" 256 100
      [("sender", JsVal.str "neurogenesis"), ("build_id", JsVal.str "b1")] rinfo0 5 9 store0
      rfl "b1" rfl (by decide)).2.2⟩
